import Mathlib

/-!
Verification development for the core CMP (RFC 4210/4211) client engine:
message protection (PBM and signature), sender-certificate discovery and
message validation, the received-message check, the polling loop, and the
status bookkeeping of the session driver.

The C sources are shallowly embedded: octet strings become `List Nat`,
ASN.1 `OPTIONAL` fields become `Option`, NULL-able pointers become `Option`,
and the external collaborators that the spec declares out of scope
(hash functions, HMAC, signature creation/verification, the DER encoder,
X.509 path validation, OID tables) are supplied as an explicit `Oracles`
record of functions.  Every embedded definition carries the name of the C
function it is translated from.
-/

namespace CMPSpec

/-- Octet strings (contents of ASN1_OCTET_STRING / unsigned char buffers). -/
abbrev Bytes := List Nat

/-! ## Protocol constants

Body-type numbers from `cmp_int.h` (`OSSL_CMP_PKIBODY_*`) and the
PKIStatus values of RFC 4210 section 5.2.3 (`OSSL_CMP_PKISTATUS_*`,
declared in the public `openssl/cmp.h` header of this library). -/

def OSSL_CMP_PVNO : Int := 2

def OSSL_CMP_PKIBODY_IR : Int := 0
def OSSL_CMP_PKIBODY_IP : Int := 1
def OSSL_CMP_PKIBODY_CR : Int := 2
def OSSL_CMP_PKIBODY_CP : Int := 3
def OSSL_CMP_PKIBODY_KUR : Int := 7
def OSSL_CMP_PKIBODY_KUP : Int := 8
def OSSL_CMP_PKIBODY_RR : Int := 11
def OSSL_CMP_PKIBODY_RP : Int := 12
def OSSL_CMP_PKIBODY_CCP : Int := 14
def OSSL_CMP_PKIBODY_PKICONF : Int := 19
def OSSL_CMP_PKIBODY_ERROR : Int := 23
def OSSL_CMP_PKIBODY_POLLREQ : Int := 25
def OSSL_CMP_PKIBODY_POLLREP : Int := 26

def OSSL_CMP_PKISTATUS_accepted : Int := 0
def OSSL_CMP_PKISTATUS_grantedWithMods : Int := 1
def OSSL_CMP_PKISTATUS_rejection : Int := 2
def OSSL_CMP_PKISTATUS_waiting : Int := 3

/-- from `cmp_int.h`: index of the one and only rev request / cert request. -/
def OSSL_CMP_REVREQSID : Int := 0

/-- Highest PKIFailureInfo bit number (RFC 4210: 26), `CMP_PKIFAILUREINFO_MAX`
in the public header of this library. -/
def CMP_PKIFAILUREINFO_MAX : Nat := 26

/-! ## CMP error reason codes

The reason codes (`CMP_R_*` / `CRMF_R_*`) that the embedded functions push on
the error queue; only the ones relevant to the claims are carried. -/

inductive CMPerr where
  | TRANSACTIONID_UNMATCHED
  | RECIPNONCE_UNMATCHED
  | UNEXPECTED_PVNO
  | ERROR_VALIDATING_PROTECTION
  | MISSING_PROTECTION
  | PKIBODY_ERROR
  | TOTAL_TIMEOUT
  | RECEIVED_NEGATIVE_CHECKAFTER_IN_POLLREP
  | BAD_CHECKAFTER_IN_POLLREP
  | MULTIPLE_RESPONSES_NOT_SUPPORTED
  | POLLREP_COMPONENT_NOT_FOUND
  | RECEIVED_ERROR
  | UNEXPECTED_PKIBODY
  | MISSING_KEY_INPUT_FOR_CREATING_PROTECTION
  | CERT_AND_KEY_DO_NOT_MATCH
  | UNSUPPORTED_KEY_TYPE
  | ERROR_PROTECTING_MESSAGE
  | POLLREP_NOT_RECEIVED
  | NULL_ARGUMENT
  deriving DecidableEq, Repr

/-! ## Data model -/

/-- X509 certificate, reduced to the attributes the embedded code inspects.
Names, keys and serial numbers are abstract identifiers. -/
structure Cert where
  subject : Nat
  issuer : Nat
  serial : Nat
  pub : Nat
  keytype : Nat
  skid : Option Bytes
  selfSigned : Bool
  kuDigitalSignature : Bool
  deriving DecidableEq, Repr

/-- EVP_PKEY, reduced to what `OSSL_CMP_MSG_protect` inspects: the public key
it corresponds to (for `X509_check_private_key`) and its algorithm type. -/
structure PKey where
  pub : Nat
  keytype : Nat
  deriving DecidableEq, Repr

/-- OSSL_CRMF_PBMPARAMETER (RFC 4211 section 4.4): salt, one-way function
algorithm id, iteration count (an ASN.1 INTEGER, read via
`ASN1_INTEGER_get_int64`), MAC algorithm id. -/
structure PBMParameter where
  salt : Bytes
  owf : Nat
  iterationCount : Int
  mac : Nat
  deriving DecidableEq, Repr

/-- Protection algorithm of a message header (`msg->header->protectionAlg`),
discriminated as in `OSSL_CMP_validate_msg`: password-based MAC carrying its
PBMParameter, DH-based MAC (unsupported), or a signature algorithm OID. -/
inductive PAlg where
  | pbmac (params : PBMParameter)
  | dhmac
  | sig (nid : Nat)
  deriving DecidableEq, Repr

/-- OSSL_CMP_PKISI (PKIStatusInfo): status (ASN1_INTEGER, may be absent),
failInfo bit string (optional), statusString sequence. -/
structure PKISI where
  status : Option Int
  failInfo : Option (List Bool)
  statusString : List Bytes
  deriving DecidableEq, Repr

/-- OSSL_CMP_CERTRESPONSE: certReqId, status info and the certificate
(if any) carried in its certifiedKeyPair. -/
structure CertResponse where
  certReqId : Option Int
  status : PKISI
  cert : Option Cert
  deriving DecidableEq, Repr

/-- OSSL_CMP_MSG, flattened: PKIHeader fields, the body variant data the
claims need (the CertRepMessage content for ip/cp/kup, the PKISI list for rp)
and the protection/extraCerts tail.  Accessing `responses`/`caPubs` is only
meaningful for enrollment bodies, mirroring the C union `body->value.ip`. -/
structure Msg where
  pvno : Int
  senderIsDirName : Bool
  senderName : Option Nat
  senderKID : Option Bytes
  transactionID : Option Bytes
  senderNonce : Option Bytes
  recipNonce : Option Bytes
  protectionAlg : Option PAlg
  bodyType : Int
  responses : List CertResponse
  caPubs : List Cert
  rpStatus : List PKISI
  protection : Option Bytes
  extraCerts : List Cert
  deriving DecidableEq, Repr

/-- The part of OSSL_CMP_CTX (`cmp_int.h`, struct OSSL_cmp_ctx_st) read and
written by the embedded functions. -/
structure Ctx where
  secretValue : Option Bytes := none
  referenceValue : Option Bytes := none
  clCert : Option Cert := none
  pkey : Option PKey := none
  digest : Nat := 0
  unprotectedSend : Bool := false
  unprotectedErrors : Bool := false
  ignore_keyusage : Bool := false
  permitTAInExtraCertsForIR : Bool := false
  pbm_itercnt : Nat := 500
  pbm_owf : Nat := 0
  pbm_mac : Nat := 0
  trusted : List Cert := []
  untrusted : List Cert := []
  extraCertsOut : List Cert := []
  srvCert : Option Cert := none
  validatedSrvCert : Option Cert := none
  expected_sender : Option Nat := none
  transactionID : Option Bytes := none
  last_senderNonce : Option Bytes := none
  recipNonce : Option Bytes := none
  lastPKIStatus : Int := 0
  failInfoCode : Nat := 0
  lastStatusString : Option (List Bytes) := none
  deriving DecidableEq, Repr

/-- External collaborators (spec section 1: hash, HMAC, signature,
DER encoder, X.509 path verification, OID tables), supplied as functions.
`cap` stands for `OSSL_CRMF_PBM_MAX_ITERATION_COUNT`, which the sources
reference but do not define here; the spec recommends 100000. -/
structure Oracles where
  /-- `EVP_get_digestbyobj`/`EVP_get_digestbynid`: one-way function per NID. -/
  owf : Nat → Option (Bytes → Bytes)
  /-- `EVP_PBE_find` + `EVP_HMAC`: keyed MAC function per MAC NID. -/
  mac : Nat → Option (Bytes → Bytes → Bytes)
  /-- `OSSL_CRMF_PBM_MAX_ITERATION_COUNT` (not defined in these files). -/
  cap : Nat
  /-- `i2d_CMP_PROTECTEDPART`: DER encoding of `SEQUENCE { header, body }`. -/
  der : Msg → Bytes
  /-- `OBJ_find_sigid_algs`: signature OID to (digest NID, pkey NID). -/
  sigAlgs : Nat → Option (Nat × Nat)
  /-- `OBJ_find_sigid_by_algs`: (digest NID, pkey NID) to signature OID. -/
  sigid : Nat → Nat → Option Nat
  /-- `EVP_DigestSign*`: signature bits over the DER bytes with a key. -/
  sign : PKey → Bytes → Bytes
  /-- `EVP_Verify*`: does the signature check out for cert, data, sig bits. -/
  sigOk : Cert → Bytes → Bytes → Bool
  /-- `X509_verify_cert`: path validation of a cert against a trust store
  (list of trusted certs) and a pool of untrusted intermediates. -/
  pathOk : List Cert → List Cert → Cert → Bool
  /-- `OSSL_CMP_cmp_timeframe` on the cert validity against the verify
  parameters of the trust store: 0 in frame, 1 expired, -1 not yet valid. -/
  timeCmp : Cert → Int
  /-- `OSSL_CMP_build_cert_chain` from the untrusted pool for a cert. -/
  chain : List Cert → Cert → List Cert

/-! ## Password-based MAC (`crypto/crmf/crmf_pbm.c`) -/

/-- Embeds `OSSL_CRMF_pbmp_new` (crmf_pbm.c:38).  The randomly generated
salt is passed in by the caller (randomness is an external collaborator);
`cap` is `OSSL_CRMF_PBM_MAX_ITERATION_COUNT`.  Returns the PBMParameter,
or `none` when the iteration count is rejected
(`CRMF_R_ITERATIONCOUNT_BELOW_100` / `CRMF_R_BAD_PBM_ITERATIONCOUNT`). -/
def OSSL_CRMF_pbmp_new (cap : Nat) (salt : Bytes) (owfnid : Nat)
    (itercnt : Nat) (macnid : Nat) : Option PBMParameter :=
  if itercnt < 100 then none
  else if itercnt > cap then none
  else some ⟨salt, owfnid, (itercnt : Int), macnid⟩

/-- The `while (--iterations > 0) basekey = H(basekey)` loop of
`OSSL_CRMF_pbm_new`, with the number of remaining re-hash steps explicit. -/
def hashLoop (H : Bytes → Bytes) : Nat → Bytes → Bytes
  | 0, basekey => basekey
  | k + 1, basekey => hashLoop H k (H basekey)

/-- Embeds `OSSL_CRMF_pbm_new` (crmf_pbm.c:154): derive the base key by
hashing secret-then-salt once and re-hashing `iterationCount - 1` further
times, enforce `100 <= iterationCount <= cap`, then MAC the message with
the derived key. -/
def OSSL_CRMF_pbm_new (O : Oracles) (pbmp : PBMParameter)
    (msg : Bytes) (sec : Bytes) : Option Bytes :=
  match O.owf pbmp.owf with
  | none => none
  | some H =>
    let basekey := H (sec ++ pbmp.salt)
    if pbmp.iterationCount < 100 ∨ pbmp.iterationCount > (O.cap : Int) then
      none
    else
      let basekey := hashLoop H (pbmp.iterationCount.toNat - 1) basekey
      match O.mac pbmp.mac with
      | none => none
      | some M => some (M basekey msg)

/-! ## Status bookkeeping (`crypto/cmp/cmp_status.c`, `cmp_ses.c`, `cmp_ctx.c`) -/

/-- Embeds `ossl_cmp_asn1_get_int` (a small accessor declared in `cmp_int.h`):
the value of an ASN1_INTEGER, or -1 if it is absent. -/
def ossl_cmp_asn1_get_int : Option Int → Int
  | none => -1
  | some v => v

/-- Embeds `ossl_cmp_pkisi_get_pkistatus` (cmp_status.c:31): -1 when the
PKISI or its status field is absent, else the status integer. -/
def ossl_cmp_pkisi_get_pkistatus : Option PKISI → Int
  | none => -1
  | some si => ossl_cmp_asn1_get_int si.status

/-- Embeds `CMP_CTX_set_failInfoCode` (cmp_ctx.c:1312): when a failInfo bit
string is present, replace `ctx.failInfoCode` by the bitmask of its bits
`0 .. CMP_PKIFAILUREINFO_MAX`; a `none` failInfo leaves the context as is. -/
def CMP_CTX_set_failInfoCode (ctx : Ctx) (failInfo : Option (List Bool)) : Ctx :=
  match failInfo with
  | none => ctx
  | some bits =>
    let code := (List.range (CMP_PKIFAILUREINFO_MAX + 1)).foldl
      (fun acc i => if bits.getD i false then acc ||| (1 <<< i) else acc) 0
    { ctx with failInfoCode := code }

/-- Embeds `save_statusInfo` (cmp_ses.c:398).  The C line 408 reads
`if ((ctx->lastPKIStatus = ossl_cmp_pkisi_get_pkistatus(si) < 0))`: by C
operator precedence the context field receives the COMPARISON RESULT
(0 or 1), not the status value.  The embedding reproduces that literally.
Returns the updated context and the 1/0 result of the C function. -/
def save_statusInfo (ctx : Ctx) (si : Option PKISI) : Ctx × Bool :=
  match si with
  | none => (ctx, false)
  | some s =>
    let cmp := ossl_cmp_pkisi_get_pkistatus (some s) < 0
    let ctx := { ctx with lastPKIStatus := if cmp then 1 else 0 }
    if cmp then (ctx, false)
    else
      let ctx := CMP_CTX_set_failInfoCode ctx s.failInfo
      let ctx := { ctx with lastStatusString := some s.statusString }
      (ctx, true)

/-! ## Certificate stack helpers (`cmp_lib.c` and the cmp utility unit) -/

/-- Models `X509_check_private_key`: the certificate and the private key
match when they refer to the same public key. -/
def X509_check_private_key (cert : Cert) (key : PKey) : Bool :=
  cert.pub = key.pub

/-- Modelled from the spec: `OSSL_CMP_sk_X509_add1_cert` is declared in
`openssl_backport.h` but its body is not among these files; per its
parameter names, its caller comments ("prepend list of certs to given sk as
far as not yet present in sk") and `CMP_sk_X509_add1_cert` (cmp_lib.c:1682),
it adds a certificate to a stack, skipped when `no_dup` is set and it is
already present, inserted at the front when `prepend` is set, appended
otherwise. -/
def OSSL_CMP_sk_X509_add1_cert (sk : List Cert) (cert : Cert)
    (no_dup : Bool) (prepend : Bool) : List Cert :=
  if no_dup ∧ sk.contains cert then sk
  else if prepend then cert :: sk else sk ++ [cert]

/-- Embeds `CMP_sk_X509_add1_certs` (cmp_lib.c:1700): append each member of
`certs`, skipping self-signed ones when `no_self_signed` and duplicates when
`no_dups`. -/
def OSSL_CMP_sk_X509_add1_certs (sk : List Cert) (certs : List Cert)
    (no_self_signed : Bool) (no_dups : Bool) : List Cert :=
  certs.foldl
    (fun sk c =>
      if ¬ no_self_signed ∨ ¬ c.selfSigned
      then OSSL_CMP_sk_X509_add1_cert sk c no_dups false
      else sk)
    sk

/-- Embeds `CMP_X509_STORE_add1_certs` (cmp_lib.c:1725): add all (or only the
self-signed) certificates of a stack to a store. -/
def OSSL_CMP_X509_STORE_add1_certs (store : List Cert) (certs : List Cert)
    (only_self_signed : Bool) : List Cert :=
  certs.foldl
    (fun store c =>
      if ¬ only_self_signed ∨ c.selfSigned then store ++ [c] else store)
    store

/-- Embeds `sk_prepend1_certs` (cmp_vfy.c:825): walk `certs` from the last
to the first element, prepending each one not yet present, so that the ones
not yet present end up in front of `sk` in their original order. -/
def sk_prepend1_certs (sk : List Cert) (certs : List Cert) : List Cert :=
  certs.reverse.foldl (fun sk c => OSSL_CMP_sk_X509_add1_cert sk c true true) sk

/-! ## Protection engine (`crypto/cmp/cmp_protect.c`) -/

/-- The `CMP_PROTECTEDPART` of a message: header and body only; protection
and extraCerts are not covered by `i2d_CMP_PROTECTEDPART`. -/
def protectedPart (m : Msg) : Msg :=
  { m with protection := none, extraCerts := [] }

/-- Embeds `CMP_calc_protection` (cmp_protect.c:37): DER-encode the
protected part, then compute either the PBM MAC (secret given, PBMAC
algorithm in the header) or the signature (key given, signature algorithm
with known digest in the header); all other combinations fail. -/
def CMP_calc_protection (O : Oracles) (msg : Msg) (secret : Option Bytes)
    (pkey : Option PKey) : Option Bytes :=
  let derBytes := O.der (protectedPart msg)
  match secret, pkey with
  | some sec, none =>
    match msg.protectionAlg with
    | some (PAlg.pbmac params) => OSSL_CRMF_pbm_new O params derBytes sec
    | _ => none
  | none, some key =>
    match msg.protectionAlg with
    | some (PAlg.sig nid) =>
      match O.sigAlgs nid with
      | none => none
      | some md_pk =>
        match O.owf md_pk.1 with
        | none => none
        | some _ => some (O.sign key derBytes)
    | _ => none
  | _, _ => none

/-- Embeds `OSSL_CMP_MSG_add_extraCerts` (cmp_protect.c:131): push the
client certificate first, then its chain built from the untrusted pool
(self-signed excluded, no duplicates), then the configured outbound extra
certificates (no duplicates). -/
def OSSL_CMP_MSG_add_extraCerts (O : Oracles) (ctx : Ctx) (msg : Msg) : Msg :=
  let ec := msg.extraCerts
  let ec :=
    match ctx.clCert with
    | some cl =>
      let ec := ec ++ [cl]
      OSSL_CMP_sk_X509_add1_certs ec (O.chain ctx.untrusted cl) true true
    | none => ec
  let ec := OSSL_CMP_sk_X509_add1_certs ec ctx.extraCertsOut false true
  { msg with extraCerts := ec }

/-- Embeds `CMP_create_pbmac_algor` (cmp_protect.c:176); the random salt is
an input.  Fails when `OSSL_CRMF_pbmp_new` rejects the iteration count. -/
def CMP_create_pbmac_algor (O : Oracles) (salt : Bytes) (ctx : Ctx) :
    Option PAlg :=
  (OSSL_CRMF_pbmp_new O.cap salt ctx.pbm_owf ctx.pbm_itercnt ctx.pbm_mac).map
    PAlg.pbmac

/-- Result of `OSSL_CMP_MSG_protect`: the protected message, or the specific
CMP error reason pushed on failure. -/
inductive ProtectResult where
  | ok (msg : Msg)
  | err (reason : CMPerr)
  deriving DecidableEq, Repr

/-- Embeds `OSSL_CMP_MSG_protect` (cmp_protect.c:208): nothing to do under
`unprotectedSend`; PBMAC when a secret value is present (senderKID from the
reference value); else signature when client cert and key are present and
match (senderKID from the cert's subject key id); else
`MISSING_KEY_INPUT_FOR_CREATING_PROTECTION`.  Both protection paths append
the extraCerts before computing the protection bits. -/
def OSSL_CMP_MSG_protect (O : Oracles) (salt : Bytes) (ctx : Ctx)
    (msg : Msg) : ProtectResult :=
  if ctx.unprotectedSend then .ok msg
  else
    match ctx.secretValue with
    | some sec =>
      match CMP_create_pbmac_algor O salt ctx with
      | none => .err .ERROR_PROTECTING_MESSAGE
      | some alg =>
        let msg := { msg with protectionAlg := some alg }
        let msg :=
          match ctx.referenceValue with
          | some rv => { msg with senderKID := some rv }
          | none => msg
        let msg := OSSL_CMP_MSG_add_extraCerts O ctx msg
        match CMP_calc_protection O msg (some sec) none with
        | none => .err .ERROR_PROTECTING_MESSAGE
        | some prot => .ok { msg with protection := some prot }
    | none =>
      match ctx.clCert, ctx.pkey with
      | some cert, some key =>
        if ¬ X509_check_private_key cert key then
          .err .CERT_AND_KEY_DO_NOT_MATCH
        else
          match O.sigid ctx.digest key.keytype with
          | none => .err .UNSUPPORTED_KEY_TYPE
          | some algNID =>
            let msg := { msg with protectionAlg := some (PAlg.sig algNID) }
            let msg :=
              match cert.skid with
              | some kid => { msg with senderKID := some kid }
              | none => msg
            let msg := OSSL_CMP_MSG_add_extraCerts O ctx msg
            match CMP_calc_protection O msg none (some key) with
            | none => .err .ERROR_PROTECTING_MESSAGE
            | some prot => .ok { msg with protection := some prot }
      | _, _ => .err .MISSING_KEY_INPUT_FOR_CREATING_PROTECTION

/-! ## Verifier (`crypto/cmp/cmp_vfy.c`) -/

/-- Embeds `check_kid` (cmp_vfy.c:368): with a senderKID present in the
message, the certificate must carry an equal subject key identifier. -/
def check_kid (cert : Cert) (skid : Option Bytes) : Bool :=
  match skid with
  | none => true
  | some k =>
    match cert.skid with
    | none => false
    | some ck => ck = k

/-- Embeds `cert_acceptable` (cmp_vfy.c:410): the certificate must be inside
its validity time frame (per the trust store's verify parameters, supplied
as the `timeCmp` oracle), its subject must equal the message sender DN (when
the sender carries a directory name), and `check_kid` must pass. -/
def cert_acceptable (O : Oracles) (cert : Cert) (msg : Msg) : Bool :=
  if O.timeCmp cert ≠ 0 then false
  else
    match msg.senderName with
    | some sn =>
      if cert.subject ≠ sn then false else check_kid cert msg.senderKID
    | none => check_kid cert msg.senderKID

/-- Embeds `find_acceptable_certs` (cmp_vfy.c:457): append each acceptable
certificate of `certs` to `sk`, skipping duplicates. -/
def find_acceptable_certs (O : Oracles) (certs : List Cert) (msg : Msg)
    (sk : List Cert) : List Cert :=
  certs.foldl
    (fun sk c =>
      if cert_acceptable O c msg
      then OSSL_CMP_sk_X509_add1_cert sk c true false
      else sk)
    sk

/-- Embeds `find_server_cert` (cmp_vfy.c:498): accumulate the acceptable
candidates from the untrusted pool (extraCerts first) and then from the
certificates of the trust store. -/
def find_server_cert (O : Oracles) (trusted untrusted : List Cert)
    (msg : Msg) : List Cert :=
  find_acceptable_certs O trusted msg (find_acceptable_certs O untrusted msg [])

/-- Modelled from the spec: `CMP_CERTREPMESSAGE_get0_certResponse` is
declared in `cmp_int.h:747` but its body is not among these files; per the
spec ("Extract single CertResponse (certReqId match ...)") it returns the
first CertResponse whose certReqId equals `rid`, a `rid` of -1 matching any
response. -/
def CMP_CERTREPMESSAGE_get0_certResponse (responses : List CertResponse)
    (rid : Int) : Option CertResponse :=
  responses.find?
    (fun crep => rid == -1 || ossl_cmp_asn1_get_int crep.certReqId == rid)

/-- Embeds `OSSL_CMP_validate_cert_path` (cmp_vfy.c:161): path validation of
a (possibly absent) certificate against a trust store and the context's
untrusted pool, via the `pathOk` oracle; a NULL certificate fails. -/
def OSSL_CMP_validate_cert_path (O : Oracles) (trusted untrusted : List Cert)
    (cert : Option Cert) : Bool :=
  match cert with
  | none => false
  | some c => O.pathOk trusted untrusted c

/-- Embeds `srv_cert_valid_3gpp` (cmp_vfy.c:530): build an ephemeral trust
store from only the self-signed certificates of the message's extraCerts;
the candidate must validate against it, and so must the newly enrolled
certificate of the CertResponse with certReqId 0 of the same message. -/
def srv_cert_valid_3gpp (O : Oracles) (ctx : Ctx) (scrt : Cert)
    (msg : Msg) : Bool :=
  let store := OSSL_CMP_X509_STORE_add1_certs [] msg.extraCerts true
  if OSSL_CMP_validate_cert_path O store ctx.untrusted (some scrt) then
    let crep := CMP_CERTREPMESSAGE_get0_certResponse msg.responses 0
    let newcrt := crep.bind CertResponse.cert
    OSSL_CMP_validate_cert_path O store ctx.untrusted newcrt
  else false

/-- The candidate-search part of `find_srvcert` (cmp_vfy.c:581): release the
cached certificate, collect the candidates, select the first one whose path
validates against the trust store, and only if none does and the 3GPP option
is set and the body is an IP, the first one accepted by the 3GPP check;
cache the selected certificate. -/
def find_srvcert_search (O : Oracles) (ctx : Ctx) (msg : Msg) :
    Option Cert × Ctx :=
  let ctx := { ctx with validatedSrvCert := none }
  let found_crts := find_server_cert O ctx.trusted ctx.untrusted msg
  match found_crts.find?
      (fun c => OSSL_CMP_validate_cert_path O ctx.trusted ctx.untrusted
        (some c)) with
  | some scrt => (some scrt, { ctx with validatedSrvCert := some scrt })
  | none =>
    if ctx.permitTAInExtraCertsForIR ∧ msg.bodyType = OSSL_CMP_PKIBODY_IP then
      match found_crts.find? (fun c => srv_cert_valid_3gpp O ctx c msg) with
      | some scrt => (some scrt, { ctx with validatedSrvCert := some scrt })
      | none => (none, ctx)
    else (none, ctx)

/-- Embeds `find_srvcert` (cmp_vfy.c:557): a sender that is not a directory
name fails; an acceptable cached `validatedSrvCert` is reused; otherwise
the candidate search runs.  Returns the found certificate (or none, which
the C code reports as `NO_VALID_SERVER_CERT_FOUND`) and the updated
context. -/
def find_srvcert (O : Oracles) (ctx : Ctx) (msg : Msg) : Option Cert × Ctx :=
  if ¬ msg.senderIsDirName then (none, ctx)
  else
    match ctx.validatedSrvCert with
    | some v =>
      if cert_acceptable O v msg then (some v, ctx)
      else find_srvcert_search O ctx msg
    | none => find_srvcert_search O ctx msg

/-- Embeds `CMP_verify_PBMAC` (cmp_vfy.c:132): recompute the protection with
the context secret and compare with the transported protection bits. -/
def CMP_verify_PBMAC (O : Oracles) (msg : Msg) (secret : Option Bytes) :
    Bool :=
  match CMP_calc_protection O msg secret none with
  | none => false
  | some prot => msg.protection = some prot

/-- Embeds `CMP_verify_signature` (cmp_vfy.c:32): unless `ignore_keyusage`,
the certificate's key usage (when present; the `kuDigitalSignature` flag
stands for `X509_get_key_usage(cert) & KU_DIGITAL_SIGNATURE`) must allow
digital signatures; the protection algorithm must decompose into a known
digest and a key type equal to the certificate's; then the signature over
the DER-encoded protected part is checked via the `sigOk` oracle. -/
def CMP_verify_signature (O : Oracles) (ctx : Ctx) (msg : Msg)
    (cert : Cert) : Bool :=
  if ¬ ctx.ignore_keyusage ∧ ¬ cert.kuDigitalSignature then false
  else
    match msg.protectionAlg with
    | some (PAlg.sig nid) =>
      match O.sigAlgs nid with
      | none => false
      | some md_pk =>
        if md_pk.1 = 0 ∨ md_pk.2 = 0 ∨ (O.owf md_pk.1).isNone then false
        else if md_pk.2 ≠ cert.keytype then false
        else O.sigOk cert (O.der (protectedPart msg)) (msg.protection.getD [])
    | _ => false

/-- Embeds `OSSL_CMP_validate_msg` (cmp_vfy.c:655).  Missing protection
algorithm or bits fail with `MISSING_PROTECTION`.  PBMAC: verify the MAC;
on success add the caPubs of an IP/CP/KUP/CCP body to the trust store
(RFC 4210 5.3.2) and succeed.  DHBasedMac: unsupported.  Signature: the
algorithm must decompose to a known key type, the sender must be a
directory name and match `expected_sender` (when set); the server cert is
the pinned `srvCert` or the one found by `find_srvcert`; the message
signature is then verified with it.  Returns the 1/0 result and the updated
context (`validatedSrvCert` cache, trust store). -/
def OSSL_CMP_validate_msg (O : Oracles) (ctx : Ctx) (msg : Msg) :
    Bool × Ctx :=
  match msg.protectionAlg with
  | none => (false, ctx)
  | some alg =>
    if msg.protection.isNone then (false, ctx)
    else
      match alg with
      | PAlg.pbmac _ =>
        if CMP_verify_PBMAC O msg ctx.secretValue then
          if msg.bodyType = OSSL_CMP_PKIBODY_IP
              ∨ msg.bodyType = OSSL_CMP_PKIBODY_CP
              ∨ msg.bodyType = OSSL_CMP_PKIBODY_KUP
              ∨ msg.bodyType = OSSL_CMP_PKIBODY_CCP then
            (true, { ctx with trusted :=
              OSSL_CMP_X509_STORE_add1_certs ctx.trusted msg.caPubs false })
          else (true, ctx)
        else (false, ctx)
      | PAlg.dhmac => (false, ctx)
      | PAlg.sig nid =>
        match O.sigAlgs nid with
        | none => (false, ctx)
        | some md_pk =>
          if md_pk.2 = 0 then (false, ctx)
          else if ¬ msg.senderIsDirName then (false, ctx)
          else if (match ctx.expected_sender, msg.senderName with
                   | some es, some sn => es != sn
                   | some _, none => true
                   | none, _ => false) then (false, ctx)
          else
            match ctx.srvCert with
            | some scrt => (CMP_verify_signature O ctx msg scrt, ctx)
            | none =>
              match find_srvcert O ctx msg with
              | (some scrt, ctx') =>
                (CMP_verify_signature O ctx' msg scrt, ctx')
              | (none, ctx') => (false, ctx')

/-! ## Received-message check and unprotected exceptions
(`cmp_vfy.c`, `cmp_ses.c`) -/

/-- The `IS_ENOLLMENT` macro of cmp_ses.c:99: the body is an IP, CP or KUP. -/
def IS_ENROLLMENT (t : Int) : Bool :=
  t == OSSL_CMP_PKIBODY_IP || t == OSSL_CMP_PKIBODY_CP
    || t == OSSL_CMP_PKIBODY_KUP

/-- Modelled from the spec: `ossl_cmp_revrepcontent_get_pkistatusinfo` is
called by cmp_ses.c but its body is not among these files; it returns the
PKIStatusInfo at position `rsid` of the revocation response's status list
(the spec's revocation pipeline uses the single index `OSSL_CMP_REVREQSID`). -/
def ossl_cmp_revrepcontent_get_pkistatusinfo (rrep : List PKISI)
    (rsid : Int) : Option PKISI :=
  if rsid < 0 then none else rrep.get? rsid.toNat

/-- Embeds `unprotected_exception` (cmp_ses.c:107): with `unprotectedErrors`
set, a missing/invalid protection is excused for error bodies, for RP with
rejection status at `OSSL_CMP_REVREQSID`, for PKIConf, and for an expected
enrollment response whose CertRepMessage carries at most one CertResponse,
that one with rejection status.  The second Bool argument mirrors the C
`invalid_protection` flag (used only for the log text). -/
def unprotected_exception (ctx : Ctx) (rep : Msg)
    (invalid_protection : Bool) (expected_type : Int) : Bool :=
  let _ := invalid_protection
  if ctx.unprotectedErrors then
    if rep.bodyType = OSSL_CMP_PKIBODY_ERROR then true
    else if rep.bodyType = OSSL_CMP_PKIBODY_RP
        ∧ ossl_cmp_pkisi_get_pkistatus
            (ossl_cmp_revrepcontent_get_pkistatusinfo rep.rpStatus
              OSSL_CMP_REVREQSID)
          = OSSL_CMP_PKISTATUS_rejection then true
    else if rep.bodyType = OSSL_CMP_PKIBODY_PKICONF then true
    else if rep.bodyType = expected_type ∧ IS_ENROLLMENT rep.bodyType then
      if rep.responses.length > 1 then false
      else
        match CMP_CERTREPMESSAGE_get0_certResponse rep.responses (-1) with
        | none => false
        | some crep =>
          ossl_cmp_pkisi_get_pkistatus (some crep.status)
            = OSSL_CMP_PKISTATUS_rejection
    else false
  else false

/-- Result of the received-message check: the C function returns the body
type (>= 0) on success and -1 on failure, pushing a reason; both the reason
and the (mutated) context are made explicit here. -/
inductive CheckResult where
  | failed (reason : CMPerr) (ctx : Ctx)
  | passed (bodytype : Int) (ctx : Ctx)
  deriving DecidableEq, Repr

/-- The context carried by a check result (the C code mutates `ctx` in
place; the embedding returns it). -/
def CheckResult.ctxOf : CheckResult → Ctx
  | .failed _ c => c
  | .passed _ c => c

/-- The protection-checking step of `OSSL_CMP_MSG_check_received`
(cmp_vfy.c:878-895): with a protection algorithm present, validate the
message (tolerating a failure that the permitted-exception callback `cb`
excuses with `invalid_protection = 1`); without one, ask `cb` with
`invalid_protection = 0`; `cb_arg` is the expected body type.  Passes the
context on (including the modifications made by `OSSL_CMP_validate_msg`). -/
def check_received_protection (O : Oracles) (ctx : Ctx) (msg : Msg)
    (cb : Option (Ctx → Msg → Bool → Int → Bool)) (cb_arg : Int) :
    CheckResult :=
  if msg.protectionAlg.isSome then
    let res := OSSL_CMP_validate_msg O ctx msg
    let excused : Bool := match cb with
      | none => false
      | some f => f res.2 msg true cb_arg
    if ¬ res.1 ∧ ¬ excused then
      .failed .ERROR_VALIDATING_PROTECTION res.2
    else .passed 0 res.2
  else
    match cb with
    | none => .failed .MISSING_PROTECTION ctx
    | some f =>
      if ¬ f ctx msg false cb_arg then .failed .MISSING_PROTECTION ctx
      else .passed 0 ctx

/-- Embeds `OSSL_CMP_MSG_check_received` (cmp_vfy.c:857): prepend the
message's extraCerts (deduplicated) to the untrusted pool; run the
protection step; check pvno, transactionID and recipNonce; then store the
sender nonce as the context's recipNonce, learn the transactionID if not
yet present, and return the body type.  Storing the sender nonce fails
when the message carries none: `CMP_CTX_set1_recipNonce` (cmp_ctx.c:1058)
rejects a NULL nonce with `CMP_R_NULL_ARGUMENT`, so cmp_vfy.c:927 returns
-1 on such a message.  Learning the transactionID, by contrast, goes
through `CMP_ASN1_OCTET_STRING_set1` (cmp_lib.c:225), which accepts NULL,
so an absent message transactionID is learned as absent. -/
def OSSL_CMP_MSG_check_received (O : Oracles) (ctx : Ctx) (msg : Msg)
    (cb : Option (Ctx → Msg → Bool → Int → Bool)) (cb_arg : Int) :
    CheckResult :=
  let ctx := { ctx with
    untrusted := sk_prepend1_certs ctx.untrusted msg.extraCerts }
  match check_received_protection O ctx msg cb cb_arg with
  | .failed r c => .failed r c
  | .passed _ ctx =>
    if msg.pvno ≠ OSSL_CMP_PVNO then .failed .UNEXPECTED_PVNO ctx
    else if (match ctx.transactionID with
             | some t => (match msg.transactionID with
                          | none => true
                          | some mt => t != mt)
             | none => false) then .failed .TRANSACTIONID_UNMATCHED ctx
    else if (match ctx.last_senderNonce with
             | some n => (match msg.recipNonce with
                          | none => true
                          | some rn => n != rn)
             | none => false) then .failed .RECIPNONCE_UNMATCHED ctx
    else
      match msg.senderNonce with
      | none => .failed .NULL_ARGUMENT ctx
      | some sn =>
        let ctx := { ctx with recipNonce := some sn }
        let ctx := if ctx.transactionID.isNone then
                     { ctx with transactionID := msg.transactionID }
                   else ctx
        if msg.bodyType < 0 then .failed .PKIBODY_ERROR ctx
        else .passed msg.bodyType ctx

/-! ## Polling loop (`cmp_ses.c`) -/

/-- One incoming answer to a pollReq: either a pollRep content (a list of
(certReqId, checkAfter) pairs of ASN.1 integers) or some other body type. -/
inductive PollReply where
  | pollRep (entries : List (Option Int × Option Int))
  | body (bt : Int)
  deriving DecidableEq, Repr

/-- Modelled from the spec: `ossl_cmp_pollrepcontent_get0_pollrep` is called
by cmp_ses.c but its body is not among these files; it returns the first
pollRep entry whose certReqId equals `rid`. -/
def ossl_cmp_pollrepcontent_get0_pollrep
    (prc : List (Option Int × Option Int)) (rid : Int) :
    Option (Option Int × Option Int) :=
  prc.find? (fun pr => ossl_cmp_asn1_get_int pr.1 == rid)

/-- Result of the polling loop: the final (enrollment) response and the time
at which it arrived, or the failure reason. -/
inductive PollResult where
  | gotFinal (bt : Int) (now : Int)
  | failed (reason : CMPerr)
  deriving DecidableEq, Repr

/-- Embeds `pollForResponse` (cmp_ses.c:249) together with the total-timeout
gate and body-type filtering of `send_receive_check` (cmp_ses.c:166).
Transport is abstracted to a trace of replies, consumed one per poll
request; an exhausted trace stands for a transport failure
(`POLLREP_NOT_RECEIVED`).  `tt` is `ctx->totaltimeout`, `end_time` the
deadline snapshot, `now` the current time; round trips are instantaneous
and `sleep(checkAfter)` advances `now` by the chosen wait.  The pollRep
branch mirrors the source: reject more than one entry, look up the entry
for `rid`, reject an unreadable checkAfter, reject a negative checkAfter;
with a finite total timeout compute `time_left = end_time - 5 - now`
(5 being the source's expected max seconds per round trip), fail with
`TOTAL_TIMEOUT` when it is exhausted, and shorten the wait to `time_left`
when checkAfter exceeds it, so that one final poll happens at the
deadline. -/
def pollForResponse (rid : Int) (tt : Nat) (end_time : Int) :
    Int → List PollReply → PollResult
  | _, [] => .failed .POLLREP_NOT_RECEIVED
  | now, reply :: rest =>
    if tt ≠ 0 ∧ end_time - now ≤ 0 then .failed .TOTAL_TIMEOUT
    else
      match reply with
      | .body bt =>
        if IS_ENROLLMENT bt then .gotFinal bt now
        else .failed (if bt = OSSL_CMP_PKIBODY_ERROR then .RECEIVED_ERROR
                      else .UNEXPECTED_PKIBODY)
      | .pollRep entries =>
        if entries.length > 1 then .failed .MULTIPLE_RESPONSES_NOT_SUPPORTED
        else
          match ossl_cmp_pollrepcontent_get0_pollrep entries rid with
          | none => .failed .POLLREP_COMPONENT_NOT_FOUND
          | some pr =>
            match pr.2 with
            | none => .failed .BAD_CHECKAFTER_IN_POLLREP
            | some ca =>
              if ca < 0 then .failed .RECEIVED_NEGATIVE_CHECKAFTER_IN_POLLREP
              else
                if tt ≠ 0 then
                  let time_left := end_time - 5 - now
                  if time_left ≤ 0 then .failed .TOTAL_TIMEOUT
                  else
                    let ca := if time_left < ca then time_left else ca
                    pollForResponse rid tt end_time (now + ca) rest
                else pollForResponse rid tt end_time (now + ca) rest

/-- A concrete instantiation of the external collaborators, used to evaluate
the embedded functions on concrete inputs. -/
def O0 : Oracles where
  owf := fun _ => some (fun b => 0 :: b)
  mac := fun _ => some (fun k d => k ++ d)
  cap := 100000
  der := fun _ => [7]
  sigAlgs := fun n => if n = 5 then some (4, 6) else none
  sigid := fun d k => if d = 4 ∧ k = 6 then some 5 else none
  sign := fun k d => k.pub :: d
  sigOk := fun c d s => s = c.pub :: d
  pathOk := fun t _ c => t.contains c ∨ c.issuer ∈ t.map Cert.subject
  timeCmp := fun _ => 0
  chain := fun _ _ => []

/-- Sample certificate for concrete evaluations. -/
def certA : Cert where
  subject := 10
  issuer := 20
  serial := 1
  pub := 100
  keytype := 6
  skid := some [5]
  selfSigned := false
  kuDigitalSignature := true

/-- Sample private key matching `certA`. -/
def keyA : PKey := ⟨100, 6⟩

/-- Sample private key NOT matching `certA`. -/
def keyB : PKey := ⟨101, 6⟩

/-- Sample self-signed root certificate (subject/issuer 30). -/
def certR : Cert := ⟨30, 30, 3, 300, 6, none, true, false⟩

/-- Sample server certificate issued by `certR` (pub 301). -/
def certS1 : Cert := ⟨10, 30, 4, 301, 6, none, false, true⟩

/-- Second sample server certificate issued by `certR` (pub 302). -/
def certS2 : Cert := ⟨10, 30, 5, 302, 6, none, false, true⟩

/-- Sample message for concrete evaluations. -/
def m0 : Msg where
  pvno := OSSL_CMP_PVNO
  senderIsDirName := true
  senderName := some 10
  senderKID := none
  transactionID := some [11]
  senderNonce := some [12]
  recipNonce := none
  protectionAlg := none
  bodyType := OSSL_CMP_PKIBODY_IP
  responses := []
  caPubs := []
  rpStatus := []
  protection := none
  extraCerts := []

/-- Sample signature-protected message whose protection bits verify (under
`O0`) with `certS2` but not with `certS1`. -/
def msg6 : Msg := { m0 with
  protectionAlg := some (PAlg.sig 5)
  protection := some [302, 7] }

/-- Sample context trusting `certR`, with both server certificates in the
untrusted pool. -/
def ctx6 : Ctx := { trusted := [certR], untrusted := [certS1, certS2] }

/-- Sample newly enrolled certificate issued by `certR`. -/
def certN : Cert := ⟨40, 30, 6, 400, 6, none, false, false⟩

/-- Sample IP message for the 3GPP scenario: self-signed `certR` travels in
extraCerts, and the sole CertResponse (certReqId 0) carries `certN`. -/
def msg7 : Msg := { m0 with
  extraCerts := [certR]
  responses := [⟨some 0, ⟨some OSSL_CMP_PKISTATUS_accepted, none, []⟩,
    some certN⟩] }

/-- Sample context for the 3GPP scenario: no trusted roots, candidate
`certS1` in the untrusted pool, exception option set. -/
def ctx7 : Ctx := { untrusted := [certS1], permitTAInExtraCertsForIR := true }

/-- Sample PBMAC-protected IP whose MAC is valid under `O0` (secret [3],
salt [9], 100 iterations), carrying `certR` in caPubs, but with a wrong
protocol version number. -/
def msgA : Msg := { m0 with
  pvno := 3
  protectionAlg := some (PAlg.pbmac ⟨[9], 0, (100 : Int), 0⟩)
  protection := some ((List.replicate 100 0 ++ [3, 9]) ++ [7])
  caPubs := [certR] }

/-- Sample CertResponse with rejection status. -/
def crepRej : CertResponse :=
  ⟨some 0, ⟨some OSSL_CMP_PKISTATUS_rejection, none, []⟩, none⟩

/-- Sample unprotected message of a matching exchange: transactionID [11],
recipNonce [12] echoing the last sent senderNonce, fresh senderNonce [13]. -/
def msgW : Msg := { m0 with
  transactionID := some [11]
  recipNonce := some [12]
  senderNonce := some [13] }

/-- Sample context mid-transaction: transactionID [11], last senderNonce
[12]. -/
def ctxW : Ctx := { transactionID := some [11], last_senderNonce := some [12] }

theorem mem_add1_cert_of_mem (sk : List Cert) (c x : Cert) (nd pp : Bool)
    (h : x ∈ sk) : x ∈ OSSL_CMP_sk_X509_add1_cert sk c nd pp := by
  unfold OSSL_CMP_sk_X509_add1_cert
  split
  · exact h
  · split
    · exact List.mem_cons_of_mem _ h
    · exact List.mem_append_left _ h

theorem self_mem_add1_cert (sk : List Cert) (c : Cert) (nd pp : Bool) :
    c ∈ OSSL_CMP_sk_X509_add1_cert sk c nd pp := by
  unfold OSSL_CMP_sk_X509_add1_cert
  split
  · next h => exact List.elem_iff.mp h.2
  · split
    · exact List.mem_cons_self c sk
    · exact List.mem_append_right _ (List.mem_singleton.mpr rfl)

theorem mem_foldl_add1_of_mem (certs : List Cert) (sk : List Cert) (x : Cert)
    (h : x ∈ sk) :
    x ∈ certs.foldl (fun sk c => OSSL_CMP_sk_X509_add1_cert sk c true true) sk := by
  induction certs generalizing sk with
  | nil => exact h
  | cons c cs ih => exact ih _ (mem_add1_cert_of_mem _ _ _ _ _ h)

theorem mem_prepend1_certs_of_mem_left (sk certs : List Cert) (x : Cert)
    (h : x ∈ sk) : x ∈ sk_prepend1_certs sk certs :=
  mem_foldl_add1_of_mem _ _ _ h

theorem mem_foldl_add1_self (l : List Cert) (x : Cert) :
    ∀ sk : List Cert, x ∈ l →
      x ∈ l.foldl (fun sk c => OSSL_CMP_sk_X509_add1_cert sk c true true) sk := by
  induction l with
  | nil => intro sk h; cases h
  | cons c cs ih =>
    intro sk h
    rw [List.foldl_cons]
    rcases List.mem_cons.mp h with rfl | hmem
    · exact mem_foldl_add1_of_mem cs _ x (self_mem_add1_cert sk x true true)
    · exact ih _ hmem

theorem mem_prepend1_certs_of_mem_right (sk certs : List Cert) (x : Cert)
    (h : x ∈ certs) : x ∈ sk_prepend1_certs sk certs :=
  mem_foldl_add1_self certs.reverse x sk (List.mem_reverse.mpr h)

theorem find_srvcert_search_frame (O : Oracles) (ctx : Ctx) (msg : Msg) :
    ∃ v, (find_srvcert_search O ctx msg).2
      = { ctx with validatedSrvCert := v } := by
  unfold find_srvcert_search
  dsimp only
  split
  · exact ⟨_, rfl⟩
  · split
    · split
      · exact ⟨_, rfl⟩
      · exact ⟨none, rfl⟩
    · exact ⟨none, rfl⟩

theorem find_srvcert_frame (O : Oracles) (ctx : Ctx) (msg : Msg) :
    ∃ v, (find_srvcert O ctx msg).2
      = { ctx with validatedSrvCert := v } := by
  unfold find_srvcert
  split
  · exact ⟨ctx.validatedSrvCert, rfl⟩
  · split
    · split
      · exact ⟨ctx.validatedSrvCert, rfl⟩
      · exact find_srvcert_search_frame O ctx msg
    · exact find_srvcert_search_frame O ctx msg

theorem validate_msg_frame (O : Oracles) (ctx : Ctx) (msg : Msg) :
    ∃ v t, (OSSL_CMP_validate_msg O ctx msg).2
      = { ctx with validatedSrvCert := v, trusted := t } := by
  have base : ∃ v t, ctx = { ctx with validatedSrvCert := v, trusted := t } :=
    ⟨ctx.validatedSrvCert, ctx.trusted, rfl⟩
  unfold OSSL_CMP_validate_msg
  split
  · exact base
  · split
    · exact base
    · split
      · split
        · split
          · exact ⟨ctx.validatedSrvCert, _, rfl⟩
          · exact base
        · exact base
      · exact base
      · split
        · exact base
        · split
          · exact base
          · split
            · exact base
            · split
              · exact base
              · split
                · exact base
                · split
                  · next heq =>
                    obtain ⟨v, hv⟩ := find_srvcert_frame O ctx msg
                    rw [heq] at hv
                    exact ⟨v, ctx.trusted, hv⟩
                  · next heq =>
                    obtain ⟨v, hv⟩ := find_srvcert_frame O ctx msg
                    rw [heq] at hv
                    exact ⟨v, ctx.trusted, hv⟩

theorem check_received_protection_frame (O : Oracles) (ctx : Ctx) (msg : Msg)
    (cb : Option (Ctx → Msg → Bool → Int → Bool)) (cb_arg : Int) :
    ∃ v t, (check_received_protection O ctx msg cb cb_arg).ctxOf
      = { ctx with validatedSrvCert := v, trusted := t } := by
  have base : ∃ v t, ctx = { ctx with validatedSrvCert := v, trusted := t } :=
    ⟨ctx.validatedSrvCert, ctx.trusted, rfl⟩
  unfold check_received_protection
  by_cases hp : msg.protectionAlg.isSome
  · rw [if_pos hp]
    dsimp only
    obtain ⟨v, t, hvt⟩ := validate_msg_frame O ctx msg
    split
    · exact ⟨v, t, hvt⟩
    · exact ⟨v, t, hvt⟩
  · rw [if_neg hp]
    cases cb with
    | none => exact base
    | some f =>
      dsimp only
      split
      · exact base
      · exact base

theorem hashLoop_eq_iterate (H : Bytes → Bytes) (k : Nat) (b : Bytes) :
    hashLoop H k b = H^[k] b := by
  induction k generalizing b with
  | zero => rfl
  | succ n ih =>
    rw [hashLoop, ih, ← Function.iterate_succ_apply, Function.iterate_succ_apply]

/-- C4: for a PBM parameter set with one-way function `H`, salt, MAC `M` and
in-range iteration count `n`, the protection computed by `OSSL_CRMF_pbm_new`
is `M k msg` where `k` results from hashing `secret ++ salt` once and
re-hashing `n - 1` further times (`n` hash applications in total). -/
theorem pbm_protection_is_iterated_hash_mac (O : Oracles) (H : Bytes → Bytes)
    (M : Bytes → Bytes → Bytes) (w m : Nat) (salt msgb sec : Bytes) (n : Nat)
    (hH : O.owf w = some H) (hM : O.mac m = some M)
    (h1 : 100 ≤ n) (h2 : n ≤ O.cap) :
    OSSL_CRMF_pbm_new O ⟨salt, w, (n : Int), m⟩ msgb sec
      = some (M (H^[n - 1] (H (sec ++ salt))) msgb) := by
  have hc : ¬ ((n : Int) < 100 ∨ (n : Int) > (O.cap : Int)) := by
    push_neg
    constructor
    · exact_mod_cast h1
    · exact_mod_cast h2
  have htn : ((n : Int)).toNat = n := by omega
  simp only [OSSL_CRMF_pbm_new, hH, hM]
  rw [if_neg hc, htn, hashLoop_eq_iterate]

/-- Witness for C4 at `n = 100`: the derived key is 100 prepended zero bytes
in front of `secret ++ salt`, and the MAC of `O0` appends the message. -/
theorem pbm_protection_is_iterated_hash_mac_witness :
    OSSL_CRMF_pbm_new O0 ⟨[1], 0, ((100 : Nat) : Int), 0⟩ [2] [3]
      = some ((List.replicate 100 0 ++ [3, 1]) ++ [2]) := by
  rw [pbm_protection_is_iterated_hash_mac O0 (fun b => 0 :: b) (fun k d => k ++ d)
        0 0 [1] [2] [3] 100 rfl rfl (by norm_num) (by decide)]
  decide

/-- C5: the iteration-count bounds are enforced both when creating PBM
parameters (`OSSL_CRMF_pbmp_new`) and when computing/verifying a PBM MAC
(`OSSL_CRMF_pbm_new`): every count below 100 (in particular 99) is rejected,
100 is accepted, the cap is accepted, and every count above the cap
(in particular cap + 1) is rejected. -/
theorem pbm_iteration_count_enforced (O : Oracles) (salt msgb sec : Bytes)
    (w m : Nat) (hcap : 100 ≤ O.cap)
    (hw : (O.owf w).isSome = true) (hm : (O.mac m).isSome = true) :
    (∀ k : Nat, k < 100 → OSSL_CRMF_pbmp_new O.cap salt w k m = none) ∧
    (OSSL_CRMF_pbmp_new O.cap salt w 100 m).isSome = true ∧
    (OSSL_CRMF_pbmp_new O.cap salt w O.cap m).isSome = true ∧
    (∀ k : Nat, O.cap < k → OSSL_CRMF_pbmp_new O.cap salt w k m = none) ∧
    (∀ i : Int, i < 100 → OSSL_CRMF_pbm_new O ⟨salt, w, i, m⟩ msgb sec = none) ∧
    (OSSL_CRMF_pbm_new O ⟨salt, w, (100 : Int), m⟩ msgb sec).isSome = true ∧
    (OSSL_CRMF_pbm_new O ⟨salt, w, (O.cap : Int), m⟩ msgb sec).isSome = true ∧
    (∀ i : Int, (O.cap : Int) < i →
      OSSL_CRMF_pbm_new O ⟨salt, w, i, m⟩ msgb sec = none) := by
  obtain ⟨H, hH⟩ := Option.isSome_iff_exists.mp hw
  obtain ⟨M, hM⟩ := Option.isSome_iff_exists.mp hm
  refine ⟨?_, ?_, ?_, ?_, ?_, ?_, ?_, ?_⟩
  · intro k hk
    simp [OSSL_CRMF_pbmp_new, hk]
  · have h1 : ¬ (100 : Nat) < 100 := by omega
    have h2 : ¬ (100 : Nat) > O.cap := by omega
    simp [OSSL_CRMF_pbmp_new, h1, h2]
  · have h1 : ¬ O.cap < 100 := by omega
    have h2 : ¬ O.cap > O.cap := by omega
    simp [OSSL_CRMF_pbmp_new, h1, h2]
  · intro k hk
    have h1 : ¬ k < 100 := by omega
    simp [OSSL_CRMF_pbmp_new, h1, hk]
  · intro i hi
    simp only [OSSL_CRMF_pbm_new, hH, hM]
    rw [if_pos (Or.inl hi)]
  · have hc : ¬ ((100 : Int) < 100 ∨ (100 : Int) > (O.cap : Int)) := by
      push_neg
      refine ⟨le_refl _, ?_⟩
      exact_mod_cast hcap
    simp only [OSSL_CRMF_pbm_new, hH, hM]
    rw [if_neg hc]
    rfl
  · have hc : ¬ (((O.cap : Nat) : Int) < 100 ∨ ((O.cap : Nat) : Int) > (O.cap : Int)) := by
      push_neg
      refine ⟨?_, le_refl _⟩
      exact_mod_cast hcap
    simp only [OSSL_CRMF_pbm_new, hH, hM]
    rw [if_neg hc]
    rfl
  · intro i hi
    simp only [OSSL_CRMF_pbm_new, hH, hM]
    rw [if_pos (Or.inr hi)]

/-- C1: the claim says that after `save_statusInfo` on a response with a
valid (non-negative) PKIStatus the context's last-status field equals that
PKIStatus.  Refuted by the code: for the response status `grantedWithMods`
(value 1) `save_statusInfo` succeeds but stores 0 in `ctx.lastPKIStatus`,
because cmp_ses.c:408 assigns the result of the comparison `status < 0`
instead of the status (missing parentheses around the assignment).  The
failInfo and statusString copies of the same function do behave as claimed;
the structure field comment in `cmp_int.h:133` ("PKIStatus of last received
IP/CP/KUP/RP, or -1") documents the intended behavior that line 408 breaks. -/
theorem save_statusInfo_status_lost :
    ossl_cmp_pkisi_get_pkistatus
        (some ⟨some OSSL_CMP_PKISTATUS_grantedWithMods, some [true], [[65]]⟩)
      = OSSL_CMP_PKISTATUS_grantedWithMods ∧
    OSSL_CMP_PKISTATUS_grantedWithMods = 1 ∧
    (save_statusInfo {}
        (some ⟨some OSSL_CMP_PKISTATUS_grantedWithMods, some [true], [[65]]⟩)).2
      = true ∧
    (save_statusInfo {}
        (some ⟨some OSSL_CMP_PKISTATUS_grantedWithMods, some [true], [[65]]⟩)).1.lastPKIStatus
      = 0 ∧
    (save_statusInfo {}
        (some ⟨some OSSL_CMP_PKISTATUS_grantedWithMods, some [true], [[65]]⟩)).1.failInfoCode
      = 1 ∧
    (save_statusInfo {}
        (some ⟨some OSSL_CMP_PKISTATUS_grantedWithMods, some [true], [[65]]⟩)).1.lastStatusString
      = some [[65]] := by
  decide

/-- Witness for C5: concrete boundary inputs 99, 100, the cap 100000 of `O0`,
and 100001, on both the parameter constructor and the MAC computation. -/
theorem pbm_iteration_count_enforced_witness :
    OSSL_CRMF_pbmp_new 100000 [1] 0 99 0 = none ∧
    (OSSL_CRMF_pbmp_new 100000 [1] 0 100 0).isSome = true ∧
    (OSSL_CRMF_pbmp_new 100000 [1] 0 100000 0).isSome = true ∧
    OSSL_CRMF_pbmp_new 100000 [1] 0 100001 0 = none ∧
    OSSL_CRMF_pbm_new O0 ⟨[1], 0, (99 : Int), 0⟩ [2] [3] = none ∧
    (OSSL_CRMF_pbm_new O0 ⟨[1], 0, (100 : Int), 0⟩ [2] [3]).isSome = true ∧
    (OSSL_CRMF_pbm_new O0 ⟨[1], 0, (100000 : Int), 0⟩ [2] [3]).isSome = true ∧
    OSSL_CRMF_pbm_new O0 ⟨[1], 0, (100001 : Int), 0⟩ [2] [3] = none := by
  obtain ⟨h1, h2, h3, h4, h5, h6, h7, h8⟩ :=
    pbm_iteration_count_enforced O0 [1] [2] [3] 0 0 (by decide) rfl rfl
  exact ⟨h1 99 (by norm_num), h2, h3, h4 100001 (by decide),
         h5 99 (by norm_num), h6, h7, h8 100001 (by decide)⟩

/-- C3 counterexample: with no secret value and a client certificate and
private key that do NOT match each other, `OSSL_CMP_MSG_protect` fails with
`CERT_AND_KEY_DO_NOT_MATCH`, not with the claimed
`MISSING_KEY_INPUT_FOR_CREATING_PROTECTION` (which the claim's final
"otherwise" would require for this input). -/
theorem msg_protect_mismatch_error_cex :
    OSSL_CMP_MSG_protect O0 [9] { clCert := some certA, pkey := some keyB } m0
      = .err .CERT_AND_KEY_DO_NOT_MATCH ∧
    (ProtectResult.err .CERT_AND_KEY_DO_NOT_MATCH)
      ≠ .err .MISSING_KEY_INPUT_FOR_CREATING_PROTECTION := by
  decide

/-- C3 (amended): with `unprotectedSend` the message is passed through
unprotected; with a secret value, PBMAC protection is applied (the header
carries the PBM parameters and the protection bits are the PBM MAC of the
DER-encoded protected part); else with a matching client certificate and
key, signature protection is applied (protection bits are the signature over
the protected part); if certificate or key is absent the operation fails
with `MISSING_KEY_INPUT_FOR_CREATING_PROTECTION` (and, per the
counterexample, with `CERT_AND_KEY_DO_NOT_MATCH` when both are present but
mismatched). -/
theorem msg_protect_algorithm_selection (O : Oracles) (salt : Bytes)
    (ctx : Ctx) (msg : Msg) :
    (ctx.unprotectedSend = true →
      OSSL_CMP_MSG_protect O salt ctx msg = .ok msg) ∧
    (∀ sec, ctx.unprotectedSend = false → ctx.secretValue = some sec →
      100 ≤ ctx.pbm_itercnt → ctx.pbm_itercnt ≤ O.cap →
      (O.owf ctx.pbm_owf).isSome = true → (O.mac ctx.pbm_mac).isSome = true →
      ∃ m, OSSL_CMP_MSG_protect O salt ctx msg = .ok m ∧
        m.protectionAlg = some (PAlg.pbmac
          ⟨salt, ctx.pbm_owf, (ctx.pbm_itercnt : Int), ctx.pbm_mac⟩) ∧
        m.protection = OSSL_CRMF_pbm_new O
          ⟨salt, ctx.pbm_owf, (ctx.pbm_itercnt : Int), ctx.pbm_mac⟩
          (O.der (protectedPart m)) sec ∧
        m.protection.isSome = true) ∧
    (∀ cert key a, ctx.unprotectedSend = false → ctx.secretValue = none →
      ctx.clCert = some cert → ctx.pkey = some key →
      X509_check_private_key cert key = true →
      O.sigid ctx.digest key.keytype = some a →
      (∃ md pk, O.sigAlgs a = some (md, pk) ∧ (O.owf md).isSome = true) →
      ∃ m, OSSL_CMP_MSG_protect O salt ctx msg = .ok m ∧
        m.protectionAlg = some (PAlg.sig a) ∧
        m.protection = some (O.sign key (O.der (protectedPart m)))) ∧
    (ctx.unprotectedSend = false → ctx.secretValue = none →
      (ctx.clCert = none ∨ ctx.pkey = none) →
      OSSL_CMP_MSG_protect O salt ctx msg
        = .err .MISSING_KEY_INPUT_FOR_CREATING_PROTECTION) := by
  refine ⟨?_, ?_, ?_, ?_⟩
  · intro h
    simp [OSSL_CMP_MSG_protect, h]
  · intro sec hu hsec h1 h2 howf hmac
    obtain ⟨H, hH⟩ := Option.isSome_iff_exists.mp howf
    obtain ⟨M, hM⟩ := Option.isSome_iff_exists.mp hmac
    have halgo : CMP_create_pbmac_algor O salt ctx
        = some (PAlg.pbmac
            ⟨salt, ctx.pbm_owf, (ctx.pbm_itercnt : Int), ctx.pbm_mac⟩) := by
      have hlt : ¬ ctx.pbm_itercnt < 100 := by omega
      have hgt : ¬ ctx.pbm_itercnt > O.cap := by omega
      simp [CMP_create_pbmac_algor, OSSL_CRMF_pbmp_new, hlt, hgt]
    have hpbm : ∀ d : Bytes, (OSSL_CRMF_pbm_new O
        ⟨salt, ctx.pbm_owf, (ctx.pbm_itercnt : Int), ctx.pbm_mac⟩
        d sec).isSome = true := by
      intro d
      have hc : ¬ ((ctx.pbm_itercnt : Int) < 100
          ∨ (ctx.pbm_itercnt : Int) > (O.cap : Int)) := by
        push_neg
        constructor
        · exact_mod_cast h1
        · exact_mod_cast h2
      simp only [OSSL_CRMF_pbm_new, hH, hM]
      rw [if_neg hc]
      rfl
    set msg1 : Msg := { msg with protectionAlg := some (PAlg.pbmac
      ⟨salt, ctx.pbm_owf, (ctx.pbm_itercnt : Int), ctx.pbm_mac⟩) } with hmsg1
    set msg2 : Msg :=
      (match ctx.referenceValue with
       | some rv => { msg1 with senderKID := some rv }
       | none => msg1) with hmsg2
    set msg3 : Msg := OSSL_CMP_MSG_add_extraCerts O ctx msg2 with hmsg3
    have halg3 : msg3.protectionAlg = some (PAlg.pbmac
        ⟨salt, ctx.pbm_owf, (ctx.pbm_itercnt : Int), ctx.pbm_mac⟩) := by
      have halg2 : msg2.protectionAlg = msg1.protectionAlg := by
        rw [hmsg2]
        cases ctx.referenceValue <;> rfl
      rw [hmsg3, OSSL_CMP_MSG_add_extraCerts]
      simpa using halg2
    obtain ⟨v, hv⟩ := Option.isSome_iff_exists.mp
      (hpbm (O.der (protectedPart msg3)))
    have hcalc : CMP_calc_protection O msg3 (some sec) none = some v := by
      rw [CMP_calc_protection]
      simp only [halg3]
      exact hv
    refine ⟨{ msg3 with protection := some v }, ?_, ?_, ?_, ?_⟩
    · rw [OSSL_CMP_MSG_protect]
      rw [if_neg (by simp [hu])]
      rw [hsec]
      simp only [halgo]
      rw [← hmsg1, ← hmsg2, ← hmsg3, hcalc]
    · simpa using halg3
    · have hpp : protectedPart { msg3 with protection := some v }
          = protectedPart msg3 := rfl
      rw [hpp]
      simpa using hv.symm
    · rfl
  · intro cert key a hu hsec hcert hkey hmatch hsigid hsigalgs
    obtain ⟨md, pk, hsa, howf⟩ := hsigalgs
    obtain ⟨H, hH⟩ := Option.isSome_iff_exists.mp howf
    set msg1 : Msg := { msg with protectionAlg := some (PAlg.sig a) } with hmsg1
    set msg2 : Msg :=
      (match cert.skid with
       | some kid => { msg1 with senderKID := some kid }
       | none => msg1) with hmsg2
    set msg3 : Msg := OSSL_CMP_MSG_add_extraCerts O ctx msg2 with hmsg3
    have halg3 : msg3.protectionAlg = some (PAlg.sig a) := by
      have halg2 : msg2.protectionAlg = msg1.protectionAlg := by
        rw [hmsg2]
        cases cert.skid <;> rfl
      rw [hmsg3, OSSL_CMP_MSG_add_extraCerts]
      simpa using halg2
    have hcalc : CMP_calc_protection O msg3 none (some key)
        = some (O.sign key (O.der (protectedPart msg3))) := by
      rw [CMP_calc_protection]
      simp only [halg3, hsa, hH]
    refine ⟨{ msg3 with
        protection := some (O.sign key (O.der (protectedPart msg3))) },
      ?_, ?_, ?_⟩
    · rw [OSSL_CMP_MSG_protect]
      rw [if_neg (by simp [hu])]
      rw [hsec, hcert, hkey]
      simp only [hmatch, Bool.not_true, Bool.false_eq_true, if_false, hsigid]
      rw [← hmsg1, ← hmsg2, ← hmsg3, hcalc]
      simp
    · simpa using halg3
    · have hpp : protectedPart { msg3 with
          protection := some (O.sign key (O.der (protectedPart msg3))) }
          = protectedPart msg3 := rfl
      rw [hpp]
  · intro hu hsec hmissing
    rw [OSSL_CMP_MSG_protect]
    rw [if_neg (by simp [hu])]
    rw [hsec]
    rcases hmissing with h | h
    · rw [h]
    · rw [h]
      cases ctx.clCert <;> rfl

/-- Witness for C3: the four branches at concrete inputs: pass-through under
`unprotectedSend`, PBMAC with secret [3] and default parameters, signature
with matching `certA`/`keyA`, and the missing-input failure with only a key. -/
theorem msg_protect_algorithm_selection_witness :
    OSSL_CMP_MSG_protect O0 [9] { unprotectedSend := true } m0 = .ok m0 ∧
    (∃ m, OSSL_CMP_MSG_protect O0 [9] { secretValue := some [3] } m0 = .ok m ∧
      m.protectionAlg = some (PAlg.pbmac ⟨[9], 0, ((500 : Nat) : Int), 0⟩) ∧
      m.protection = OSSL_CRMF_pbm_new O0 ⟨[9], 0, ((500 : Nat) : Int), 0⟩
        (O0.der (protectedPart m)) [3] ∧
      m.protection.isSome = true) ∧
    (∃ m, OSSL_CMP_MSG_protect O0 [9]
        { clCert := some certA, pkey := some keyA, digest := 4 } m0 = .ok m ∧
      m.protectionAlg = some (PAlg.sig 5) ∧
      m.protection = some (O0.sign keyA (O0.der (protectedPart m)))) ∧
    OSSL_CMP_MSG_protect O0 [9] { pkey := some keyA } m0
      = .err .MISSING_KEY_INPUT_FOR_CREATING_PROTECTION := by
  refine ⟨?_, ?_, ?_, ?_⟩
  · exact (msg_protect_algorithm_selection O0 [9] { unprotectedSend := true }
      m0).1 rfl
  · exact (msg_protect_algorithm_selection O0 [9] { secretValue := some [3] }
      m0).2.1 [3] rfl rfl (by decide) (by decide) rfl rfl
  · exact (msg_protect_algorithm_selection O0 [9]
      { clCert := some certA, pkey := some keyA, digest := 4 } m0).2.2.1
      certA keyA 5 rfl rfl rfl rfl (by decide) (by decide)
      ⟨4, 6, by decide, rfl⟩
  · exact (msg_protect_algorithm_selection O0 [9] { pkey := some keyA }
      m0).2.2.2 rfl rfl (Or.inl rfl)

theorem find_srvcert_search_eq (O : Oracles) (ctx : Ctx) (msg : Msg)
    (hcache : ctx.validatedSrvCert = none) :
    find_srvcert_search O ctx msg =
      match (find_server_cert O ctx.trusted ctx.untrusted msg).find?
          (fun x => OSSL_CMP_validate_cert_path O ctx.trusted ctx.untrusted
            (some x)) with
      | some scrt => (some scrt, { ctx with validatedSrvCert := some scrt })
      | none =>
        if ctx.permitTAInExtraCertsForIR = true
            ∧ msg.bodyType = OSSL_CMP_PKIBODY_IP then
          match (find_server_cert O ctx.trusted ctx.untrusted msg).find?
              (fun x => srv_cert_valid_3gpp O ctx x msg) with
          | some scrt => (some scrt, { ctx with validatedSrvCert := some scrt })
          | none => (none, ctx)
        else (none, ctx) := by
  have hclear : ({ ctx with validatedSrvCert := none } : Ctx) = ctx := by
    rw [← hcache]
  unfold find_srvcert_search
  dsimp only
  rw [hclear]

/-- C6 counterexample: under `O0` with trust anchor `certR` and the two
acceptable candidates `certS1`, `certS2` in the untrusted pool, both
candidates pass path validation, only `certS2` passes message-signature
verification — yet validation of `msg6` FAILS and the cache holds `certS1`.
This refutes the claim that the verifier accepts (and caches) exactly the
first candidate passing both checks and skips a candidate whose signature
verification fails: the selection loop of `find_srvcert` (cmp_vfy.c:610)
runs path validation only, caches its pick, and the signature is verified
only once afterwards in `OSSL_CMP_validate_msg`. -/
theorem validate_msg_first_path_valid_cex :
    (OSSL_CMP_validate_msg O0 ctx6 msg6).1 = false ∧
    (OSSL_CMP_validate_msg O0 ctx6 msg6).2.validatedSrvCert = some certS1 ∧
    CMP_verify_signature O0 ctx6 msg6 certS2 = true ∧
    OSSL_CMP_validate_cert_path O0 ctx6.trusted ctx6.untrusted (some certS2)
      = true ∧
    cert_acceptable O0 certS2 msg6 = true ∧
    CMP_verify_signature O0 ctx6 msg6 certS1 = false := by
  decide

/-- C6 (amended): during signature-path validation with no pinned server
certificate and an empty cache, the verifier selects, and stores in the
validated-server-cert cache, the first acceptable candidate for which X.509
path validation succeeds — signature verification is not part of the
candidate selection; the message-signature verification is then attempted
exactly once, with that candidate, and overall validation succeeds iff it
passes; the cache is populated upon successful path validation even when
the signature verification then fails. -/
theorem validate_msg_selects_first_path_valid (O : Oracles) (ctx : Ctx)
    (msg : Msg) (nid md pk : Nat) (c : Cert)
    (hpin : ctx.srvCert = none)
    (hcache : ctx.validatedSrvCert = none)
    (halg : msg.protectionAlg = some (PAlg.sig nid))
    (hprot : msg.protection.isNone = false)
    (hsa : O.sigAlgs nid = some (md, pk))
    (hpk : pk ≠ 0)
    (hdir : msg.senderIsDirName = true)
    (hexp : ctx.expected_sender = none)
    (hfind : (find_server_cert O ctx.trusted ctx.untrusted msg).find?
        (fun x => OSSL_CMP_validate_cert_path O ctx.trusted ctx.untrusted
          (some x)) = some c) :
    find_srvcert O ctx msg
      = (some c, { ctx with validatedSrvCert := some c }) ∧
    OSSL_CMP_validate_msg O ctx msg
      = (CMP_verify_signature O { ctx with validatedSrvCert := some c } msg c,
         { ctx with validatedSrvCert := some c }) := by
  have hfs : find_srvcert O ctx msg
      = (some c, { ctx with validatedSrvCert := some c }) := by
    unfold find_srvcert
    rw [if_neg (by simp [hdir])]
    rw [hcache]
    show find_srvcert_search O ctx msg = _
    rw [find_srvcert_search_eq O ctx msg hcache, hfind]
  refine ⟨hfs, ?_⟩
  unfold OSSL_CMP_validate_msg
  rw [halg]
  show (if msg.protection.isNone = true then _ else _) = _
  rw [if_neg (by simp [hprot])]
  show (match O.sigAlgs nid with
        | none => _
        | some md_pk => _) = _
  rw [hsa]
  show (if pk = 0 then _ else _) = _
  rw [if_neg hpk]
  rw [if_neg (by simp [hdir])]
  rw [if_neg (by simp [hexp])]
  rw [hpin]
  show (match find_srvcert O ctx msg with
        | (some scrt, ctx') => (CMP_verify_signature O ctx' msg scrt, ctx')
        | (none, ctx') => (false, ctx')) = _
  rw [hfs]
  simp [hpin]

/-- Witness for C6 (amended) at the concrete `ctx6`/`msg6` scenario:
`certS1` is selected and cached, and validation fails because the one
signature verification attempt (with `certS1`) fails. -/
theorem validate_msg_selects_first_path_valid_witness :
    find_srvcert O0 ctx6 msg6
      = (some certS1, { ctx6 with validatedSrvCert := some certS1 }) ∧
    OSSL_CMP_validate_msg O0 ctx6 msg6
      = (false, { ctx6 with validatedSrvCert := some certS1 }) := by
  obtain ⟨h1, h2⟩ := validate_msg_selects_first_path_valid O0 ctx6 msg6
    5 4 6 certS1 rfl rfl rfl rfl rfl (by decide) rfl rfl (by decide)
  refine ⟨h1, ?_⟩
  rw [h2]
  decide

theorem store_add1_true_eq (certs : List Cert) :
    ∀ acc, OSSL_CMP_X509_STORE_add1_certs acc certs true
      = acc ++ certs.filter (fun c => c.selfSigned) := by
  induction certs with
  | nil => intro acc; simp [OSSL_CMP_X509_STORE_add1_certs]
  | cons c cs ih =>
    intro acc
    unfold OSSL_CMP_X509_STORE_add1_certs at ih ⊢
    rw [List.foldl_cons]
    by_cases h : c.selfSigned
    · rw [if_pos (Or.inr h), ih]
      simp [List.filter_cons, h]
    · rw [if_neg (by simp [h]), ih]
      simp [List.filter_cons, h]

/-- C7: the 3GPP TS 33.310 exception.  With no acceptable cached cert and
every candidate failing regular path validation: the ephemeral trust store
is exactly the self-signed certificates of the message's extraCerts; the
3GPP acceptance of a candidate holds iff both the candidate and the newly
enrolled certificate of the CertResponse with certReqId 0 validate against
that ephemeral store; with `permit_ta_in_extracerts_for_ir` set and an IP
body the verifier returns the first candidate passing the 3GPP check (and
caches it); with the option unset (or a non-IP body) the same input yields
no valid server certificate. -/
theorem find_srvcert_3gpp_exception (O : Oracles) (ctx : Ctx) (msg : Msg)
    (hdir : msg.senderIsDirName = true)
    (hcache : ctx.validatedSrvCert = none)
    (hplain : (find_server_cert O ctx.trusted ctx.untrusted msg).find?
        (fun x => OSSL_CMP_validate_cert_path O ctx.trusted ctx.untrusted
          (some x)) = none) :
    (OSSL_CMP_X509_STORE_add1_certs [] msg.extraCerts true
      = msg.extraCerts.filter (fun c => c.selfSigned)) ∧
    (∀ c, srv_cert_valid_3gpp O ctx c msg = true ↔
      (OSSL_CMP_validate_cert_path O
          (msg.extraCerts.filter (fun c => c.selfSigned)) ctx.untrusted
          (some c) = true ∧
       OSSL_CMP_validate_cert_path O
          (msg.extraCerts.filter (fun c => c.selfSigned)) ctx.untrusted
          ((CMP_CERTREPMESSAGE_get0_certResponse msg.responses 0).bind
            CertResponse.cert) = true)) ∧
    (ctx.permitTAInExtraCertsForIR = true → msg.bodyType = OSSL_CMP_PKIBODY_IP →
      find_srvcert O ctx msg
        = (match (find_server_cert O ctx.trusted ctx.untrusted msg).find?
              (fun x => srv_cert_valid_3gpp O ctx x msg) with
           | some scrt => (some scrt, { ctx with validatedSrvCert := some scrt })
           | none => (none, ctx))) ∧
    (¬ (ctx.permitTAInExtraCertsForIR = true
          ∧ msg.bodyType = OSSL_CMP_PKIBODY_IP) →
      find_srvcert O ctx msg = (none, ctx)) := by
  have hstore := store_add1_true_eq msg.extraCerts []
  rw [List.nil_append] at hstore
  have hsearch : find_srvcert O ctx msg = find_srvcert_search O ctx msg := by
    unfold find_srvcert
    rw [if_neg (by simp [hdir])]
    rw [hcache]
  refine ⟨hstore, ?_, ?_, ?_⟩
  · intro c
    unfold srv_cert_valid_3gpp
    rw [hstore]
    by_cases h : OSSL_CMP_validate_cert_path O
        (msg.extraCerts.filter (fun c => c.selfSigned)) ctx.untrusted (some c)
    · simp [h]
    · simp [h]
  · intro hta hip
    rw [hsearch, find_srvcert_search_eq O ctx msg hcache, hplain]
    rw [if_pos ⟨hta, hip⟩]
  · intro hnot
    rw [hsearch, find_srvcert_search_eq O ctx msg hcache, hplain]
    rw [if_neg hnot]

/-- Witness for C7: trust store empty, self-signed `certR` in extraCerts,
candidate `certS1` and enrolled cert `certN` both chaining under `certR`:
with the option set the 3GPP exception finds and caches `certS1`; with the
option unset the identical input finds no valid server certificate. -/
theorem find_srvcert_3gpp_exception_witness :
    find_srvcert O0 ctx7 msg7
      = (some certS1, { ctx7 with validatedSrvCert := some certS1 }) ∧
    find_srvcert O0 { ctx7 with permitTAInExtraCertsForIR := false } msg7
      = (none, { ctx7 with permitTAInExtraCertsForIR := false }) := by
  have h := find_srvcert_3gpp_exception O0 ctx7 msg7 rfl rfl (by decide)
  have h' := find_srvcert_3gpp_exception O0
    { ctx7 with permitTAInExtraCertsForIR := false } msg7 rfl rfl (by decide)
  constructor
  · rw [h.2.2.1 rfl rfl]
    decide
  · exact h'.2.2.2 (by decide)

/-- C2: in the received-message check, once the protection step has passed
(hypothesis `hprot`, with `ctx2` the context it hands on) and the pvno is
correct: an absent or octet-wise different transactionID (when the context
holds one) fails with `TRANSACTIONID_UNMATCHED`; an absent or different
recipNonce (when the context holds a last sent senderNonce) fails with
`RECIPNONCE_UNMATCHED`; when those checks pass and the message carries a
senderNonce, it is stored as the context's recipNonce and, if the context
held no transactionID, the message's transactionID is learned; a message
without a senderNonce fails at the store (cmp_vfy.c:927,
`CMP_CTX_set1_recipNonce` rejects NULL). -/
theorem check_received_txid_nonce_chaining (O : Oracles) (ctx ctx2 : Ctx)
    (msg : Msg) (cb : Option (Ctx → Msg → Bool → Int → Bool)) (cb_arg : Int)
    (hprot : check_received_protection O
        { ctx with untrusted := sk_prepend1_certs ctx.untrusted msg.extraCerts }
        msg cb cb_arg = .passed 0 ctx2)
    (hpvno : msg.pvno = OSSL_CMP_PVNO) :
    (∀ t, ctx.transactionID = some t →
      (msg.transactionID = none ∨ msg.transactionID ≠ some t) →
      OSSL_CMP_MSG_check_received O ctx msg cb cb_arg
        = .failed .TRANSACTIONID_UNMATCHED ctx2) ∧
    (∀ n, ctx.last_senderNonce = some n →
      (msg.recipNonce = none ∨ msg.recipNonce ≠ some n) →
      (msg.transactionID = ctx.transactionID ∨ ctx.transactionID = none) →
      OSSL_CMP_MSG_check_received O ctx msg cb cb_arg
        = .failed .RECIPNONCE_UNMATCHED ctx2) ∧
    ((msg.transactionID = ctx.transactionID ∨ ctx.transactionID = none) →
     (msg.recipNonce = ctx.last_senderNonce ∨ ctx.last_senderNonce = none) →
     0 ≤ msg.bodyType →
     msg.senderNonce ≠ none →
     ∃ c3, OSSL_CMP_MSG_check_received O ctx msg cb cb_arg
         = .passed msg.bodyType c3 ∧
       c3.recipNonce = msg.senderNonce ∧
       c3.transactionID = (if ctx.transactionID = none then msg.transactionID
                           else ctx.transactionID) ∧
       c3.untrusted = sk_prepend1_certs ctx.untrusted msg.extraCerts) ∧
    ((msg.transactionID = ctx.transactionID ∨ ctx.transactionID = none) →
     (msg.recipNonce = ctx.last_senderNonce ∨ ctx.last_senderNonce = none) →
     msg.senderNonce = none →
     OSSL_CMP_MSG_check_received O ctx msg cb cb_arg
       = .failed .NULL_ARGUMENT ctx2) := by
  have hframe := check_received_protection_frame O
    { ctx with untrusted := sk_prepend1_certs ctx.untrusted msg.extraCerts }
    msg cb cb_arg
  rw [hprot] at hframe
  simp only [CheckResult.ctxOf] at hframe
  obtain ⟨v, tr, hc2⟩ := hframe
  have htx : ctx2.transactionID = ctx.transactionID := by rw [hc2]
  have hsn : ctx2.last_senderNonce = ctx.last_senderNonce := by rw [hc2]
  have hun : ctx2.untrusted = sk_prepend1_certs ctx.untrusted msg.extraCerts :=
    by rw [hc2]
  have hmain : OSSL_CMP_MSG_check_received O ctx msg cb cb_arg
      = (if msg.pvno ≠ OSSL_CMP_PVNO then
           CheckResult.failed .UNEXPECTED_PVNO ctx2
         else if (match ctx2.transactionID with
                  | some t => (match msg.transactionID with
                               | none => true
                               | some mt => t != mt)
                  | none => false) then
           CheckResult.failed .TRANSACTIONID_UNMATCHED ctx2
         else if (match ctx2.last_senderNonce with
                  | some n => (match msg.recipNonce with
                               | none => true
                               | some rn => n != rn)
                  | none => false) then
           CheckResult.failed .RECIPNONCE_UNMATCHED ctx2
         else
           match msg.senderNonce with
           | none => CheckResult.failed .NULL_ARGUMENT ctx2
           | some sn =>
             let c4 := { ctx2 with recipNonce := some sn }
             let c5 := if c4.transactionID.isNone then
                         { c4 with transactionID := msg.transactionID }
                       else c4
             if msg.bodyType < 0 then CheckResult.failed .PKIBODY_ERROR c5
             else CheckResult.passed msg.bodyType c5) := by
    unfold OSSL_CMP_MSG_check_received
    dsimp only
    rw [hprot]
  rw [hpvno, if_neg (by simp)] at hmain
  refine ⟨?_, ?_, ?_, ?_⟩
  · intro t ht hdiff
    have hcond : (match ctx2.transactionID with
                  | some t => (match msg.transactionID with
                               | none => true
                               | some mt => t != mt)
                  | none => false) = true := by
      rw [htx, ht]
      rcases hdiff with h | h
      · rw [h]
      · cases hmt : msg.transactionID with
        | none => rfl
        | some mt =>
          rw [hmt] at h
          have hne : t ≠ mt := fun he => h (by rw [he])
          simp [hne]
    rw [hmain, if_pos hcond]
  · intro n hn hdiff hptx
    have hcondtx : (match ctx2.transactionID with
                    | some t => (match msg.transactionID with
                                 | none => true
                                 | some mt => t != mt)
                    | none => false) = false := by
      rw [htx]
      rcases hptx with h | h
      · cases hct : ctx.transactionID with
        | none => rfl
        | some t =>
          rw [hct] at h
          rw [h]
          simp
      · rw [h]
    have hcond : (match ctx2.last_senderNonce with
                  | some n => (match msg.recipNonce with
                               | none => true
                               | some rn => n != rn)
                  | none => false) = true := by
      rw [hsn, hn]
      rcases hdiff with h | h
      · rw [h]
      · cases hmr : msg.recipNonce with
        | none => rfl
        | some rn =>
          rw [hmr] at h
          have hne : n ≠ rn := fun he => h (by rw [he])
          simp [hne]
    rw [hmain, if_neg (by simp [hcondtx]), if_pos hcond]
  · intro hptx hpn hbt hsnn
    have hcondtx : (match ctx2.transactionID with
                    | some t => (match msg.transactionID with
                                 | none => true
                                 | some mt => t != mt)
                    | none => false) = false := by
      rw [htx]
      rcases hptx with h | h
      · cases hct : ctx.transactionID with
        | none => rfl
        | some t =>
          rw [hct] at h
          rw [h]
          simp
      · rw [h]
    have hcondn : (match ctx2.last_senderNonce with
                   | some n => (match msg.recipNonce with
                                | none => true
                                | some rn => n != rn)
                   | none => false) = false := by
      rw [hsn]
      rcases hpn with h | h
      · cases hcn : ctx.last_senderNonce with
        | none => rfl
        | some n =>
          rw [hcn] at h
          rw [h]
          simp
      · rw [h]
    cases hms : msg.senderNonce with
    | none => exact absurd hms hsnn
    | some sn =>
      rw [hmain, if_neg (by simp [hcondtx]), if_neg (by simp [hcondn]), hms]
      dsimp only
      rw [if_neg (by omega : ¬ msg.bodyType < 0)]
      cases hct : ctx.transactionID with
      | none =>
        have h2 : ctx2.transactionID = none := by rw [htx, hct]
        refine ⟨{ ctx2 with
            recipNonce := some sn
            transactionID := msg.transactionID }, ?_, ?_, ?_, ?_⟩
        · rw [if_pos (by simp [h2])]
        · simp
        · simp [hct]
        · simp [hun]
      | some t =>
        have h2 : ctx2.transactionID = some t := by rw [htx, hct]
        refine ⟨{ ctx2 with recipNonce := some sn }, ?_, ?_, ?_, ?_⟩
        · rw [if_neg (by simp [h2])]
        · simp
        · simp [h2, hct]
        · simp [hun]
  · intro hptx hpn hnone
    have hcondtx : (match ctx2.transactionID with
                    | some t => (match msg.transactionID with
                                 | none => true
                                 | some mt => t != mt)
                    | none => false) = false := by
      rw [htx]
      rcases hptx with h | h
      · cases hct : ctx.transactionID with
        | none => rfl
        | some t =>
          rw [hct] at h
          rw [h]
          simp
      · rw [h]
    have hcondn : (match ctx2.last_senderNonce with
                   | some n => (match msg.recipNonce with
                                | none => true
                                | some rn => n != rn)
                   | none => false) = false := by
      rw [hsn]
      rcases hpn with h | h
      · cases hcn : ctx.last_senderNonce with
        | none => rfl
        | some n =>
          rw [hcn] at h
          rw [h]
          simp
      · rw [h]
    rw [hmain, if_neg (by simp [hcondtx]), if_neg (by simp [hcondn]), hnone]

/-- Witness for C2 at a matching concrete exchange: context transactionID
[11] and last senderNonce [12]; unprotected message excused by an
always-true callback, with matching transactionID, recipNonce [12] and
fresh senderNonce [13]: the check passes, stores [13] as the context's
recipNonce and keeps transactionID [11]. -/
theorem check_received_txid_nonce_chaining_witness :
    ∃ c3, OSSL_CMP_MSG_check_received O0 ctxW msgW
        (some (fun _ _ _ _ => true)) 1 = .passed msgW.bodyType c3 ∧
      c3.recipNonce = some [13] ∧
      c3.transactionID = some [11] := by
  obtain ⟨c3, h1, h2, h3, h4⟩ :=
    (check_received_txid_nonce_chaining O0 ctxW ctxW msgW
      (some (fun _ _ _ _ => true)) 1 rfl rfl).2.2.1
      (Or.inl rfl) (Or.inl rfl) (by decide) (by decide)
  exact ⟨c3, h1, h2.trans (by decide), h3.trans (by decide)⟩

/-- C9: the unprotected-errors exception for enrollment responses.  For a
received IP/CP/KUP of the expected type, a CertRepMessage with more than
one CertResponse, or with none, is never excused for missing or invalid
protection; the exception is granted exactly when `unprotectedErrors` is
set and the sole CertResponse has rejection status. -/
theorem unprotected_exception_sole_rejection (ctx : Ctx) (rep : Msg)
    (inv : Bool) (et : Int)
    (hexp : rep.bodyType = et) (henr : IS_ENROLLMENT rep.bodyType = true) :
    (rep.responses.length > 1 → unprotected_exception ctx rep inv et = false) ∧
    (rep.responses = [] → unprotected_exception ctx rep inv et = false) ∧
    (∀ crep, rep.responses = [crep] →
      (unprotected_exception ctx rep inv et = true ↔
        (ctx.unprotectedErrors = true ∧
         ossl_cmp_pkisi_get_pkistatus (some crep.status)
           = OSSL_CMP_PKISTATUS_rejection))) := by
  have henr3 : rep.bodyType = 1 ∨ rep.bodyType = 3 ∨ rep.bodyType = 8 := by
    simp only [IS_ENROLLMENT, OSSL_CMP_PKIBODY_IP, OSSL_CMP_PKIBODY_CP,
      OSSL_CMP_PKIBODY_KUP, Bool.or_eq_true, beq_iff_eq] at henr
    tauto
  have hnerr : ¬ rep.bodyType = OSSL_CMP_PKIBODY_ERROR := by
    rcases henr3 with h | h | h <;> rw [h] <;> decide
  have hnconf : ¬ rep.bodyType = OSSL_CMP_PKIBODY_PKICONF := by
    rcases henr3 with h | h | h <;> rw [h] <;> decide
  have hnrp : ¬ rep.bodyType = OSSL_CMP_PKIBODY_RP := by
    rcases henr3 with h | h | h <;> rw [h] <;> decide
  unfold unprotected_exception
  by_cases hue : ctx.unprotectedErrors
  · rw [if_pos hue]
    rw [if_neg hnerr]
    rw [if_neg (by rintro ⟨h, _⟩; exact hnrp h)]
    rw [if_neg hnconf]
    rw [if_pos ⟨hexp, henr⟩]
    refine ⟨?_, ?_, ?_⟩
    · intro hlen
      rw [if_pos hlen]
    · intro hnil
      rw [if_neg (by rw [hnil]; decide)]
      rw [hnil]
      simp [CMP_CERTREPMESSAGE_get0_certResponse]
    · intro crep hr
      rw [if_neg (by rw [hr]; simp)]
      rw [hr]
      simp [CMP_CERTREPMESSAGE_get0_certResponse, hue]
  · rw [if_neg hue]
    refine ⟨fun _ => rfl, fun _ => rfl, fun crep hr => ?_⟩
    constructor
    · intro h
      exact absurd h (by decide)
    · rintro ⟨h, _⟩
      exact absurd h hue

/-- Witness for C9 at concrete inputs: an IP with two CertResponses is not
excused, an IP with none is not excused, and an IP whose sole CertResponse
has rejection status is excused exactly when `unprotectedErrors` is set. -/
theorem unprotected_exception_sole_rejection_witness :
    unprotected_exception { unprotectedErrors := true }
      { m0 with responses := [crepRej, crepRej] } false OSSL_CMP_PKIBODY_IP
      = false ∧
    unprotected_exception { unprotectedErrors := true } m0 false
      OSSL_CMP_PKIBODY_IP = false ∧
    unprotected_exception { unprotectedErrors := true }
      { m0 with responses := [crepRej] } false OSSL_CMP_PKIBODY_IP = true := by
  refine ⟨?_, ?_, ?_⟩
  · exact (unprotected_exception_sole_rejection { unprotectedErrors := true }
      { m0 with responses := [crepRej, crepRej] } false OSSL_CMP_PKIBODY_IP
      rfl (by decide)).1 (by decide)
  · exact (unprotected_exception_sole_rejection { unprotectedErrors := true }
      m0 false OSSL_CMP_PKIBODY_IP rfl (by decide)).2.1 rfl
  · exact ((unprotected_exception_sole_rejection { unprotectedErrors := true }
      { m0 with responses := [crepRej] } false OSSL_CMP_PKIBODY_IP
      rfl (by decide)).2.2 crepRej rfl).mpr ⟨rfl, by decide⟩

theorem rejected_frame_conclusions (ctx c : Ctx) (msg : Msg) (v : Option Cert)
    (t : List Cert)
    (h : c = { ctx with
      untrusted := sk_prepend1_certs ctx.untrusted msg.extraCerts
      validatedSrvCert := v
      trusted := t }) :
    c.untrusted = sk_prepend1_certs ctx.untrusted msg.extraCerts ∧
    (∀ x ∈ msg.extraCerts, x ∈ c.untrusted) ∧
    (∀ x ∈ ctx.untrusted, x ∈ c.untrusted) ∧
    (∃ v t, c = { ctx with
      untrusted := sk_prepend1_certs ctx.untrusted msg.extraCerts
      validatedSrvCert := v
      trusted := t }) := by
  have hu : c.untrusted = sk_prepend1_certs ctx.untrusted msg.extraCerts := by
    rw [h]
  refine ⟨hu, ?_, ?_, v, t, h⟩
  · intro x hx
    rw [hu]
    exact mem_prepend1_certs_of_mem_right _ _ _ hx
  · intro x hx
    rw [hu]
    exact mem_prepend1_certs_of_mem_left _ _ _ hx

/-- C10 counterexample: a PBMAC-protected IP with a valid MAC, caPubs, and a
wrong pvno is rejected with -1 (`UNEXPECTED_PVNO`), yet the context's TRUST
STORE has been extended by the caPubs during the protection-validation step
that ran before the failing check — refuting the claim that no context
field other than the untrusted pool is modified on a rejected message. -/
theorem check_received_rejected_still_modifies_cex :
    OSSL_CMP_MSG_check_received O0 { secretValue := some [3] } msgA none 1
      = .failed .UNEXPECTED_PVNO
          { secretValue := some [3], trusted := [certR] } ∧
    ({ secretValue := some [3], trusted := [certR] } : Ctx).trusted
      ≠ ({ secretValue := some [3] } : Ctx).trusted := by
  decide

/-- C10 (amended): the received-message check prepends the message's
extraCerts (deduplicated) to the untrusted pool before any protection,
version, transactionID or nonce checking, so the pool is extended by those
certificates even when the check then rejects the message; on a message
rejected by the protection, pvno, transactionID or nonce check, every other
context field except possibly the validated-server-cert cache and the trust
store (both of which the protection-validation step may update — the cache
on candidate selection, the trust store by the caPubs of a MAC-validated
enrollment response) is unmodified. -/
theorem check_received_rejected_frame (O : Oracles) (ctx : Ctx) (msg : Msg)
    (cb : Option (Ctx → Msg → Bool → Int → Bool)) (cb_arg : Int) (r : CMPerr)
    (c : Ctx)
    (hfail : OSSL_CMP_MSG_check_received O ctx msg cb cb_arg = .failed r c)
    (hr : r = .ERROR_VALIDATING_PROTECTION ∨ r = .MISSING_PROTECTION
        ∨ r = .UNEXPECTED_PVNO ∨ r = .TRANSACTIONID_UNMATCHED
        ∨ r = .RECIPNONCE_UNMATCHED) :
    c.untrusted = sk_prepend1_certs ctx.untrusted msg.extraCerts ∧
    (∀ x ∈ msg.extraCerts, x ∈ c.untrusted) ∧
    (∀ x ∈ ctx.untrusted, x ∈ c.untrusted) ∧
    (∃ v t, c = { ctx with
      untrusted := sk_prepend1_certs ctx.untrusted msg.extraCerts
      validatedSrvCert := v
      trusted := t }) := by
  obtain ⟨v, t, hvt⟩ := check_received_protection_frame O
    { ctx with untrusted := sk_prepend1_certs ctx.untrusted msg.extraCerts }
    msg cb cb_arg
  unfold OSSL_CMP_MSG_check_received at hfail
  dsimp only at hfail
  cases hP : check_received_protection O
      { ctx with untrusted := sk_prepend1_certs ctx.untrusted msg.extraCerts }
      msg cb cb_arg with
  | failed r0 c0 =>
    rw [hP] at hfail hvt
    simp only [CheckResult.ctxOf] at hvt
    dsimp only at hfail
    rw [CheckResult.failed.injEq] at hfail
    obtain ⟨hr0, hc0⟩ := hfail
    exact rejected_frame_conclusions ctx c msg v t (by rw [← hc0, hvt])
  | passed b c2 =>
    rw [hP] at hfail hvt
    simp only [CheckResult.ctxOf] at hvt
    dsimp only at hfail
    split at hfail
    · rw [CheckResult.failed.injEq] at hfail
      obtain ⟨hr0, hc0⟩ := hfail
      exact rejected_frame_conclusions ctx c msg v t (by rw [← hc0, hvt])
    · split at hfail
      · rw [CheckResult.failed.injEq] at hfail
        obtain ⟨hr0, hc0⟩ := hfail
        exact rejected_frame_conclusions ctx c msg v t (by rw [← hc0, hvt])
      · split at hfail
        · rw [CheckResult.failed.injEq] at hfail
          obtain ⟨hr0, hc0⟩ := hfail
          exact rejected_frame_conclusions ctx c msg v t (by rw [← hc0, hvt])
        · split at hfail
          · rw [CheckResult.failed.injEq] at hfail
            obtain ⟨hr0, _⟩ := hfail
            rw [← hr0] at hr
            rcases hr with h | h | h | h | h <;> cases h
          · split at hfail
            · rw [CheckResult.failed.injEq] at hfail
              obtain ⟨hr0, _⟩ := hfail
              rw [← hr0] at hr
              rcases hr with h | h | h | h | h <;> cases h
            · cases hfail

/-- Witness for C10 (amended): the concrete rejected run of the
counterexample scenario also satisfies the frame property — only the
untrusted pool (here unchanged, the message carries no extraCerts), the
cache and the trust store may differ from the initial context. -/
theorem check_received_rejected_frame_witness :
    ∃ v t, ({ secretValue := some [3], trusted := [certR] } : Ctx)
      = { ({ secretValue := some [3] } : Ctx) with
          untrusted := sk_prepend1_certs
            ({ secretValue := some [3] } : Ctx).untrusted msgA.extraCerts
          validatedSrvCert := v
          trusted := t } := by
  obtain ⟨-, -, -, h⟩ := check_received_rejected_frame O0
    { secretValue := some [3] } msgA none 1 .UNEXPECTED_PVNO
    { secretValue := some [3], trusted := [certR] }
    (by decide) (Or.inr (Or.inr (Or.inl rfl)))
  exact h

/-- C8: the polling loop, for a pollRep that passes the send gate and
parses (hypotheses): a negative checkAfter fails with
`RECEIVED_NEGATIVE_CHECKAFTER_IN_POLLREP`; checkAfter 0 is accepted and
re-polls immediately (no time passes); with a nonzero total timeout the
loop fails with `TOTAL_TIMEOUT` once the remaining time
`end_time - 5 - now` is exhausted, and when checkAfter exceeds the
remaining (positive) time the wait is shortened to it, so the next poll
request is issued at the deadline; at the deadline, a further pollRep
answer yields `TOTAL_TIMEOUT` while a final enrollment response is still
accepted. -/
theorem poll_checkafter_and_total_timeout (rid : Int) (tt : Nat)
    (end_time now : Int) (entries : List (Option Int × Option Int))
    (rest : List PollReply) (pr : Option Int × Option Int) (ca : Int)
    (hgate : ¬ (tt ≠ 0 ∧ end_time - now ≤ 0))
    (hlen : ¬ entries.length > 1)
    (hget : ossl_cmp_pollrepcontent_get0_pollrep entries rid = some pr)
    (hca : pr.2 = some ca) :
    (ca < 0 →
      pollForResponse rid tt end_time now (.pollRep entries :: rest)
        = .failed .RECEIVED_NEGATIVE_CHECKAFTER_IN_POLLREP) ∧
    (ca = 0 → (tt = 0 ∨ 0 < end_time - 5 - now) →
      pollForResponse rid tt end_time now (.pollRep entries :: rest)
        = pollForResponse rid tt end_time now rest) ∧
    (0 ≤ ca → tt ≠ 0 → end_time - 5 - now ≤ 0 →
      pollForResponse rid tt end_time now (.pollRep entries :: rest)
        = .failed .TOTAL_TIMEOUT) ∧
    (tt ≠ 0 → 0 < end_time - 5 - now → end_time - 5 - now < ca →
      pollForResponse rid tt end_time now (.pollRep entries :: rest)
        = pollForResponse rid tt end_time (end_time - 5) rest) ∧
    (∀ entries2 rest2 pr2 ca2, tt ≠ 0 →
      ¬ entries2.length > 1 →
      ossl_cmp_pollrepcontent_get0_pollrep entries2 rid = some pr2 →
      pr2.2 = some ca2 → 0 ≤ ca2 →
      pollForResponse rid tt end_time (end_time - 5)
          (.pollRep entries2 :: rest2) = .failed .TOTAL_TIMEOUT) ∧
    (∀ bt rest2, tt ≠ 0 → IS_ENROLLMENT bt = true →
      pollForResponse rid tt end_time (end_time - 5) (.body bt :: rest2)
        = .gotFinal bt (end_time - 5)) := by
  refine ⟨?_, ?_, ?_, ?_, ?_, ?_⟩
  · intro hneg
    simp only [pollForResponse]
    rw [if_neg hgate]
    try dsimp only
    rw [if_neg hlen, hget]
    try dsimp only
    rw [hca]
    try dsimp only
    rw [if_pos hneg]
  · intro h0 hok
    simp only [pollForResponse]
    rw [if_neg hgate]
    try dsimp only
    rw [if_neg hlen, hget]
    try dsimp only
    rw [hca]
    try dsimp only
    rw [if_neg (by omega : ¬ ca < 0)]
    by_cases htt : tt ≠ 0
    · rw [if_pos htt]
      try dsimp only
      have hpos : 0 < end_time - 5 - now := by
        rcases hok with h | h
        · exact absurd h htt
        · exact h
      rw [if_neg (by omega : ¬ end_time - 5 - now ≤ 0)]
      rw [h0]
      rw [if_neg (by omega : ¬ end_time - 5 - now < 0)]
      rw [add_zero]
    · rw [if_neg htt]
      rw [h0, add_zero]
  · intro hca0 htt hle
    simp only [pollForResponse]
    rw [if_neg hgate]
    try dsimp only
    rw [if_neg hlen, hget]
    try dsimp only
    rw [hca]
    try dsimp only
    rw [if_neg (by omega : ¬ ca < 0)]
    rw [if_pos htt]
    try dsimp only
    rw [if_pos hle]
  · intro htt hpos hlt
    simp only [pollForResponse]
    rw [if_neg hgate]
    try dsimp only
    rw [if_neg hlen, hget]
    try dsimp only
    rw [hca]
    try dsimp only
    rw [if_neg (by omega : ¬ ca < 0)]
    rw [if_pos htt]
    try dsimp only
    rw [if_neg (by omega : ¬ end_time - 5 - now ≤ 0)]
    rw [if_pos hlt]
    have harith : now + (end_time - 5 - now) = end_time - 5 := by omega
    rw [harith]
  · intro entries2 rest2 pr2 ca2 htt hlen2 hget2 hca2 hnn
    simp only [pollForResponse]
    rw [if_neg (by rintro ⟨h1, h2⟩; omega)]
    try dsimp only
    rw [if_neg hlen2, hget2]
    try dsimp only
    rw [hca2]
    try dsimp only
    rw [if_neg (by omega : ¬ ca2 < 0)]
    rw [if_pos htt]
    try dsimp only
    rw [if_pos (by omega : end_time - 5 - (end_time - 5) ≤ 0)]
  · intro bt rest2 htt hb
    simp only [pollForResponse]
    rw [if_neg (by rintro ⟨h1, h2⟩; omega)]
    try dsimp only
    rw [if_pos hb]

/-- Witness for C8 at concrete traces: checkAfter -1 is rejected;
checkAfter 0 re-polls immediately and the follow-up IP arrives at the same
time; an exhausted deadline fails with TOTAL_TIMEOUT; a checkAfter of 100
against 15 remaining seconds is shortened, the final poll happens at the
deadline (time 15 of 20), and yields TOTAL_TIMEOUT on another pollRep but
success on an IP. -/
theorem poll_checkafter_and_total_timeout_witness :
    pollForResponse 0 0 0 0 [.pollRep [(some 0, some (-1))]]
      = .failed .RECEIVED_NEGATIVE_CHECKAFTER_IN_POLLREP ∧
    pollForResponse 0 0 0 7
        [.pollRep [(some 0, some 0)], .body OSSL_CMP_PKIBODY_IP]
      = .gotFinal OSSL_CMP_PKIBODY_IP 7 ∧
    pollForResponse 0 10 4 0 [.pollRep [(some 0, some 3)]]
      = .failed .TOTAL_TIMEOUT ∧
    pollForResponse 0 10 20 0
        [.pollRep [(some 0, some 100)], .pollRep [(some 0, some 1)]]
      = .failed .TOTAL_TIMEOUT ∧
    pollForResponse 0 10 20 0
        [.pollRep [(some 0, some 100)], .body OSSL_CMP_PKIBODY_IP]
      = .gotFinal OSSL_CMP_PKIBODY_IP 15 := by
  refine ⟨?_, ?_, ?_, ?_, ?_⟩
  · exact (poll_checkafter_and_total_timeout 0 0 0 0 [(some 0, some (-1))]
      [] (some 0, some (-1)) (-1) (by decide) (by decide) (by decide)
      rfl).1 (by decide)
  · exact ((poll_checkafter_and_total_timeout 0 0 0 7 [(some 0, some 0)]
      [.body OSSL_CMP_PKIBODY_IP] (some 0, some 0) 0 (by decide) (by decide)
      (by decide) rfl).2.1 rfl (Or.inl rfl)).trans (by decide)
  · exact (poll_checkafter_and_total_timeout 0 10 4 0 [(some 0, some 3)]
      [] (some 0, some 3) 3 (by decide) (by decide) (by decide) rfl).2.2.1
      (by decide) (by decide) (by decide)
  · exact ((poll_checkafter_and_total_timeout 0 10 20 0 [(some 0, some 100)]
      [.pollRep [(some 0, some 1)]] (some 0, some 100) 100 (by decide)
      (by decide) (by decide) rfl).2.2.2.1 (by decide) (by decide)
      (by decide)).trans (by decide)
  · exact ((poll_checkafter_and_total_timeout 0 10 20 0 [(some 0, some 100)]
      [.body OSSL_CMP_PKIBODY_IP] (some 0, some 100) 100 (by decide)
      (by decide) (by decide) rfl).2.2.2.1 (by decide) (by decide)
      (by decide)).trans (by decide)

end CMPSpec
